import Mathlib

/-! # Digital_Portfolio: `src/main.js`

A shallow embedding of the event handlers and the per-frame update of
`src/main.js`, followed by the properties of the page's behaviour that are
settled against them.

Conventions of the embedding.

* A JavaScript handler that mutates the page becomes a function from the
  observable page state to the new state.  Where a handler raises (a `null`
  dereference, a selector the DOM rejects) it stops at that statement and the
  exception is appended to the `uncaught` log of the state, as the browser
  reports it and goes on with the next listener.
* The DOM queries the handlers make (`document.querySelector`,
  `document.getElementById`, `FormData.get`) are fields of the state the
  handler reads: the markup is not part of `src/`.
* Numbers are exact: the definitions are generic over a field `K`, so that they
  evaluate over `ℚ` and are reasoned about over `ℝ`.  Pixel offsets are `Int`.
  A write into a `Float32Array` converts the exact value to binary32.
* A `classList` is the list of class names of the element.
-/

namespace Portfolio

/-! ## JavaScript values -/

/-- Exceptions the handlers of `main.js` can raise. -/
inductive JsError where
  /-- A property read or written on `null`. -/
  | typeError
  /-- The DOM `SyntaxError` raised by `querySelector` on an invalid selector. -/
  | syntaxError
  deriving DecidableEq, Repr

/-- Equality of the results of fallible steps is decidable. -/
instance instDecidableEqExcept {ε α : Type} [DecidableEq ε] [DecidableEq α] :
    DecidableEq (Except ε α)
  | .ok a, .ok b => if h : a = b then isTrue (by rw [h]) else isFalse (by simpa using h)
  | .error a, .error b => if h : a = b then isTrue (by rw [h]) else isFalse (by simpa using h)
  | .ok _, .error _ => isFalse (by simp)
  | .error _, .ok _ => isFalse (by simp)

/-- JavaScript `a || b` where `a` is `null` or a string and `b` is the (possibly
raising) computation of a string: `a` when it is truthy, that is a non-empty
string, otherwise `b`. -/
def jsOr (a : Option String) (b : Except JsError String) : Except JsError String :=
  match a with
  | some v => if v ≠ "" then .ok v else b
  | none => b

/-- Read of `el.value` where `el` is the result of a `querySelector`: raises a
`TypeError` when the query found no element. -/
def valueOf (el : Option String) : Except JsError String :=
  match el with
  | some v => .ok v
  | none => .error .typeError

/-! ## Contact form (`main.js` lines 515-546) -/

/-- The two properties of the submit button the handler touches. -/
structure Button where
  textContent : String
  disabled : Bool
  deriving DecidableEq, Repr

/-- A pending `setTimeout` of the contact form: its delay and the value of
`originalText` its callback closes over. -/
structure Timer where
  delay : Nat
  originalText : String
  deriving DecidableEq, Repr

/-- What the submit handler observes and changes. -/
structure FormPage where
  /-- Result of `formData.get('name')`, `none` for `null`. -/
  fdName : Option String
  /-- Result of `formData.get('email')`. -/
  fdEmail : Option String
  /-- Result of `formData.get('message')`. -/
  fdMessage : Option String
  /-- Value of the element `e.target.querySelector('input[type="text"]')`, `none` when
  the query finds nothing. -/
  textInput : Option String
  /-- Value of the element `e.target.querySelector('input[type="email"]')`. -/
  emailInput : Option String
  /-- Value of the element `e.target.querySelector('textarea')`. -/
  textarea : Option String
  /-- The element `contactForm.querySelector('button[type="submit"]')`. -/
  submitBtn : Option Button
  /-- Messages passed to `alert`, oldest first. -/
  alerts : List String
  /-- Number of calls of `contactForm.reset()`. -/
  resets : Nat
  /-- Timeouts scheduled and not yet fired, oldest first. -/
  timers : List Timer
  /-- Whether `e.preventDefault()` was called on the event being dispatched. -/
  defaultPrevented : Bool
  /-- Exceptions that left a handler, oldest first. -/
  uncaught : List JsError
  deriving DecidableEq, Repr

/-- The validation message of line 528. -/
def fillAllFields : String := "Please fill in all fields"

/-- The confirmation message of line 540. -/
def thankYou : String := "Thank you for your message! I'll get back to you soon."

/-- The pending label of line 536. -/
def sendingLabel : String := "Sending..."

/-- Line 522: `formData.get('name') || e.target.querySelector('input[type="text"]').value`. -/
def readName (s : FormPage) : Except JsError String := jsOr s.fdName (valueOf s.textInput)

/-- Line 523: `formData.get('email') || e.target.querySelector('input[type="email"]').value`. -/
def readEmail (s : FormPage) : Except JsError String := jsOr s.fdEmail (valueOf s.emailInput)

/-- Line 524: `formData.get('message') || e.target.querySelector('textarea').value`. -/
def readMessage (s : FormPage) : Except JsError String := jsOr s.fdMessage (valueOf s.textarea)

/-- An exception that leaves the handler: the handler stops there and the
exception is reported as uncaught. -/
def FormPage.raise (s : FormPage) (e : JsError) : FormPage :=
  { s with uncaught := s.uncaught ++ [e] }

/-- The `submit` listener of the contact form, lines 517-545, up to its return. -/
def submitHandler (s : FormPage) : FormPage :=
  let s := { s with defaultPrevented := true }
  match readName s with
  | .error err => s.raise err
  | .ok name =>
    match readEmail s with
    | .error err => s.raise err
    | .ok email =>
      match readMessage s with
      | .error err => s.raise err
      | .ok message =>
        if name = "" ∨ email = "" ∨ message = "" then
          { s with alerts := s.alerts ++ [fillAllFields] }
        else
          match s.submitBtn with
          | none => s.raise .typeError
          | some submitBtn =>
            let originalText := submitBtn.textContent
            { s with
              submitBtn := some { textContent := sendingLabel, disabled := true }
              timers := s.timers ++ [{ delay := 2000, originalText := originalText }] }

/-- The callback of the `setTimeout` of lines 539-544, run when timer `t` fires. -/
def timerFires (t : Timer) (s : FormPage) : FormPage :=
  { s with
    alerts := s.alerts ++ [thankYou]
    resets := s.resets + 1
    submitBtn := s.submitBtn.map fun _ => { textContent := t.originalText, disabled := false }
    timers := s.timers.erase t }

/-! ## Strings and class lists -/

/-- JavaScript `s.startsWith(pre)`. -/
def startsWith (s pre : String) : Bool := pre.data.isPrefixOf s.data

/-- JavaScript `s.slice(n)` for `n` within the string.  It is applied in `main.js`
only behind `startsWith('#')`, where dropping one character and dropping one
UTF-16 unit are the same. -/
def sliceFrom (s : String) (n : Nat) : String := s.drop n

/-- The `classList` of an element: its class names, in order. -/
abbrev ClassList := List String

/-- DOM `classList.contains(c)`. -/
def ClassList.contains (l : ClassList) (c : String) : Bool := decide (c ∈ l)

/-- DOM `classList.add(c)`: appended unless already there. -/
def ClassList.add (l : ClassList) (c : String) : ClassList :=
  if c ∈ l then l else l ++ [c]

/-- DOM `classList.remove(c)`. -/
def ClassList.remove (l : ClassList) (c : String) : ClassList :=
  l.filter fun d => d ≠ c

/-- DOM `classList.toggle(c)`: removed when present, added when absent. -/
def ClassList.toggle (l : ClassList) (c : String) : ClassList :=
  if c ∈ l then ClassList.remove l c else l ++ [c]

/-! ## Navigation (`main.js` lines 358-431 and 466-509) -/

/-- An element of the page that a query can return. -/
structure Element where
  id : String
  /-- Distance in CSS pixels from the top of the document to the top of the element. -/
  docTop : Int
  deriving DecidableEq, Repr

/-- The queries of `document` that the navigation listeners make. -/
structure Document where
  /-- DOM `document.getElementById(id)`, `none` for `null`. -/
  getElementById : String → Option Element
  /-- DOM `document.querySelector(selector)`: raises `SyntaxError` on a string
  that is not a valid selector, otherwise the first match or `null`. -/
  querySelector : String → Except JsError (Option Element)

/-- A scroll that a listener asks for. -/
inductive ScrollRequest where
  /-- Call `window.scrollTo({ top, behavior: 'smooth' })`. -/
  | windowScrollTo (top : Int)
  /-- Call `gsap.to(window, { duration: 1, scrollTo: { y: target, offsetY } })`. -/
  | gsapScrollTo (target : Element) (offsetY : Int)
  deriving DecidableEq, Repr

/-- Modelled from the spec: the destination (the document offset that ends at the
top of the viewport) of a requested scroll.  The scroll-to plugin of the
animation library is not part of `src/`; by section 4.4 it scrolls "to that
element offset by a fixed header height", so that the element's top ends
`offsetY` pixels below the top of the viewport. -/
def ScrollRequest.destination : ScrollRequest → Int
  | .windowScrollTo top => top
  | .gsapScrollTo target offsetY => target.docTop - offsetY

/-- A `.nav-link` anchor. -/
structure NavLink where
  /-- Result of `link.getAttribute('href')`, `none` for `null`. -/
  href : Option String
  classList : ClassList
  deriving DecidableEq, Repr

/-- What the navigation listeners observe and change. -/
structure NavPage where
  doc : Document
  /-- Value of `navbar.offsetHeight`, `none` when there is no `.navbar`. -/
  navbarOffsetHeight : Option Int
  /-- Class list of the `.hamburger` element, `none` when there is none. -/
  hamburger : Option ClassList
  /-- Class list of the `.nav-menu` element, `none` when there is none. -/
  navMenu : Option ClassList
  /-- Value of `window.pageYOffset`. -/
  pageYOffset : Int
  /-- Scrolls requested so far, oldest first. -/
  scrolls : List ScrollRequest
  /-- The fragment of the page URL, with its `#`. -/
  fragment : String
  /-- Number of navigations the browser performed (entries pushed on the history). -/
  navigations : Nat
  /-- Whether `e.preventDefault()` was called on the event being dispatched. -/
  defaultPrevented : Bool
  /-- Exceptions that left a listener, oldest first. -/
  uncaught : List JsError

/-- DOM `history.replaceState(null, '', url)` for a `url` that is a fragment: the
fragment of the page URL is replaced, nothing is loaded and no history entry is
added. -/
def NavPage.replaceState (s : NavPage) (url : String) : NavPage :=
  { s with fragment := url }

/-- Lines 472-478, `scrollToSection(id)`. -/
def scrollToSection (id : String) (s : NavPage) : NavPage :=
  match s.doc.getElementById id with
  | none => s
  | some target =>
    let offset := match s.navbarOffsetHeight with
      | some h => h
      | none => 0
    let rectTop := target.docTop - s.pageYOffset
    let top := rectTop + s.pageYOffset - offset - 8
    { s with scrolls := s.scrolls ++ [.windowScrollTo top] }

/-- Lines 481-495: the `click` listener that the `DOMContentLoaded` callback puts
on every nav link.  It is registered before the one of `setupNavigation`, which
runs from `new PortfolioWebsite()` at line 512. -/
def loadedLinkClick (link : NavLink) (s : NavPage) : NavPage :=
  let s := { s with defaultPrevented := true }
  let href := link.href.getD ""
  let id := if startsWith href "#" then sliceFrom href 1 else href
  let s := scrollToSection id s
  let s := match s.navMenu with
    | none => s
    | some menu =>
      if ClassList.contains menu "open" then
        { s with
          navMenu := some (ClassList.remove menu "open")
          hamburger := s.hamburger.map fun h => ClassList.remove h "open" }
      else s
  s.replaceState ("#" ++ id)

/-- Lines 374-398: the `click` listener that `setupNavigation` puts on every nav
link. -/
def setupLinkClick (link : NavLink) (s : NavPage) : NavPage :=
  let s := { s with defaultPrevented := true }
  let href := link.href.getD ""
  match (if startsWith href "#" then s.doc.querySelector href else s.doc.querySelector href) with
  | .error err => { s with uncaught := s.uncaught ++ [err] }
  | .ok target =>
    let s := { s with
      hamburger := s.hamburger.map fun h => ClassList.remove h "active"
      navMenu := s.navMenu.map fun m => ClassList.remove m "active" }
    match target with
    | none => s
    | some target =>
      let s := { s with scrolls := s.scrolls ++ [.gsapScrollTo target 80] }
      if startsWith href "#" then s.replaceState href else s

/-- The default action of a click on an anchor, taken by the browser after the
listeners unless one of them called `preventDefault`: a navigation to the `href`. -/
def defaultAction (link : NavLink) (s : NavPage) : NavPage :=
  if s.defaultPrevented then s
  else { s with fragment := link.href.getD "", navigations := s.navigations + 1 }

/-- Activation of a nav link: a fresh click event goes through the two listeners
in the order of their registration, then the default action. -/
def activateLink (link : NavLink) (s : NavPage) : NavPage :=
  defaultAction link (setupLinkClick link (loadedLinkClick link { s with defaultPrevented := false }))

/-- Lines 499-502: the `click` listener on the hamburger of the
`DOMContentLoaded` callback. -/
def loadedHamburgerClick (s : NavPage) : NavPage :=
  { s with
    navMenu := s.navMenu.map fun m => ClassList.toggle m "open"
    hamburger := s.hamburger.map fun h => ClassList.toggle h "open" }

/-- Lines 366-369: the `click` listener on the hamburger of `setupNavigation`. -/
def setupHamburgerClick (s : NavPage) : NavPage :=
  { s with
    hamburger := s.hamburger.map fun h => ClassList.toggle h "active"
    navMenu := s.navMenu.map fun m => ClassList.toggle m "active" }

/-- A click on the hamburger: both listeners, in the order of their registration.
Both are registered only when the element exists (lines 365 and 498). -/
def hamburgerClick (s : NavPage) : NavPage :=
  match s.hamburger with
  | none => s
  | some _ => setupHamburgerClick (loadedHamburgerClick s)

/-- The events of the mobile menu. -/
inductive MenuEvent where
  | hamburger
  | link (l : NavLink)
  deriving DecidableEq, Repr

/-- One event of the mobile menu. -/
def menuStep (s : NavPage) : MenuEvent → NavPage
  | .hamburger => hamburgerClick s
  | .link l => activateLink l s

/-- A sequence of events of the mobile menu, oldest first. -/
def menuRun (s : NavPage) (evs : List MenuEvent) : NavPage := evs.foldl menuStep s

/-- The `onEnter` callback of `ScrollTrigger.batch`, lines 403-411, on the nav
links; `id` is `elements[0].id`. -/
def onEnter (id : String) (navLinks : List NavLink) : List NavLink :=
  navLinks.map fun link =>
    let link := { link with classList := ClassList.remove link.classList "active" }
    if link.href = some ("#" ++ id) then
      { link with classList := ClassList.add link.classList "active" }
    else link

/-- The `onLeave` callback of `ScrollTrigger.batch`, lines 412-419. -/
def onLeave (id : String) (navLinks : List NavLink) : List NavLink :=
  navLinks.map fun link =>
    if link.href = some ("#" ++ id) then
      { link with classList := ClassList.remove link.classList "active" }
    else link

/-- The hamburger and the menu carry the same `active` and `open` flags. -/
def MenuAgree (s : NavPage) : Prop :=
  ∃ h m : ClassList, s.hamburger = some h ∧ s.navMenu = some m ∧
    ("active" ∈ h ↔ "active" ∈ m) ∧ ("open" ∈ h ↔ "open" ∈ m)

/-- None of the four flags is set. -/
def MenuClosed (s : NavPage) : Prop :=
  ∃ h m : ClassList, s.hamburger = some h ∧ s.navMenu = some m ∧
    "active" ∉ h ∧ "active" ∉ m ∧ "open" ∉ h ∧ "open" ∉ m

/-- The callbacks of the section trigger, with the id of the first element of
the batch. -/
inductive SectionEvent where
  | enter (id : String)
  | leave (id : String)
  deriving DecidableEq, Repr

/-- One callback of the section trigger. -/
def sectionStep (navLinks : List NavLink) : SectionEvent → List NavLink
  | .enter id => onEnter id navLinks
  | .leave id => onLeave id navLinks

/-- A sequence of callbacks of the section trigger, oldest first. -/
def sectionRun (navLinks : List NavLink) (evs : List SectionEvent) : List NavLink :=
  evs.foldl sectionStep navLinks

/-- The id of the section entered last in `evs`, `id` when none was. -/
def lastEntered (id : String) : List SectionEvent → String
  | [] => id
  | .enter j :: evs => lastEntered j evs
  | .leave _ :: evs => lastEntered id evs

/-- A document for concrete pages, in which the elements of `els` are the
elements with an id.  `querySelector` is given on the selectors that the `href`
of a nav link hands it on these pages: the empty string and the bare `#`, which
the DOM rejects with a `SyntaxError`, and `#id` for an identifier `id`, which
finds the first element with that id.  Any other selector finds nothing there. -/
def Document.ofElements (els : List Element) : Document where
  getElementById id := if id = "" then none else els.find? fun e => e.id = id
  querySelector sel :=
    if sel = "" ∨ sel = "#" then .error .syntaxError
    else if startsWith sel "#" then .ok (els.find? fun e => e.id = sliceFrom sel 1)
    else .ok none

/-! ## Pointer tracking and the render loop (`main.js` lines 10-21, 172-200, 433-462) -/

/-- The two components of a `THREE.Vector2`. -/
structure Vector2 (K : Type) where
  x : K
  y : K
  deriving DecidableEq, Repr

/-- The three components of a `THREE.Vector3` or `THREE.Euler`. -/
structure Vector3 (K : Type) where
  x : K
  y : K
  z : K
  deriving DecidableEq, Repr

/-- Modelled from the spec: the library method `Vector2.lerp(v, alpha)`, which is
not part of `src/`.  By section 4.2 it is `target += (live - target) * alpha`,
on each component. -/
def Vector2.lerp {K : Type} [Field K] (self v : Vector2 K) (alpha : K) : Vector2 K :=
  { x := self.x + (v.x - self.x) * alpha
    y := self.y + (v.y - self.y) * alpha }

/-- The fields of `PortfolioWebsite` that the pointer and the frames drive. -/
structure PortfolioWebsite (K : Type) where
  mouse : Vector2 K
  mouseTarget : Vector2 K
  /-- Value of `this.particles.rotation`, `none` while `this.particles` is `null`. -/
  particlesRotation : Option (Vector3 K)
  /-- Value of `this.camera.position`, `none` while `this.camera` is `null`. -/
  cameraPosition : Option (Vector3 K)
  deriving DecidableEq, Repr

/-- Lines 174-177, the `mousemove` listener, for an event at `(clientX, clientY)`
in a window of `innerWidth` by `innerHeight`. -/
def mousemove {K : Type} [Field K] (clientX clientY innerWidth innerHeight : K)
    (self : PortfolioWebsite K) : PortfolioWebsite K :=
  { self with
    mouse :=
      { x := (clientX / innerWidth) * 2 - 1
        y := -(clientY / innerHeight) * 2 + 1 } }

/-- Lines 433-462, one frame of `animate`, on the pointer target, the rotation of
the particle cloud and the position of the camera.  The drift of the floating
shapes (lines 446-452) touches none of these and is left out. -/
def animate {K : Type} [Field K] (self : PortfolioWebsite K) : PortfolioWebsite K :=
  let mouseTarget := self.mouseTarget.lerp self.mouse 0.05
  let particlesRotation := self.particlesRotation.map fun rotation =>
    let x := rotation.x + (mouseTarget.y * 0.1 - rotation.x) * 0.05
    let y := rotation.y + (mouseTarget.x * 0.1 - rotation.y) * 0.05
    { rotation with x := x, y := y }
  let cameraPosition := self.cameraPosition.map fun position =>
    let x := position.x + (mouseTarget.x * 0.5 - position.x) * 0.05
    let y := position.y + (-mouseTarget.y * 0.5 - position.y) * 0.05
    { position with x := x, y := y }
  { self with
    mouseTarget := mouseTarget
    particlesRotation := particlesRotation
    cameraPosition := cameraPosition }

/-- The state after `n` frames with no pointer event in between. -/
def frames {K : Type} [Field K] (n : Nat) (self : PortfolioWebsite K) : PortfolioWebsite K :=
  animate^[n] self

/-- The state the constructor and `setupThreeJS` leave: both vectors at the
origin (lines 16-17), the camera at the origin moved to `z = 5` (line 77), and the
particle cloud of `createParticleSystem` unrotated, as the library creates it. -/
def PortfolioWebsite.initial {K : Type} [Field K] : PortfolioWebsite K :=
  { mouse := { x := 0, y := 0 }
    mouseTarget := { x := 0, y := 0 }
    particlesRotation := some { x := 0, y := 0, z := 0 }
    cameraPosition := some { x := 0, y := 0, z := 5 } }

/-- The two events that drive the render loop. -/
inductive LoopEvent (K : Type) where
  /-- A `mousemove` at `(clientX, clientY)` in a window of `innerWidth` by
  `innerHeight`. -/
  | mousemove (clientX clientY innerWidth innerHeight : K)
  /-- A display frame: one call of `animate`. -/
  | frame
  deriving DecidableEq, Repr

/-- One event of the render loop: the `mousemove` listener or a frame of `animate`. -/
def loopStep {K : Type} [Field K] (self : PortfolioWebsite K) : LoopEvent K → PortfolioWebsite K
  | .mousemove clientX clientY innerWidth innerHeight =>
    mousemove clientX clientY innerWidth innerHeight self
  | .frame => animate self

/-- An interleaving of pointer events and frames, oldest first. -/
def loopRun {K : Type} [Field K] (self : PortfolioWebsite K) (evs : List (LoopEvent K)) :
    PortfolioWebsite K :=
  evs.foldl loopStep self

/-- The reading that the `mousemove` listener stores for the event lies in
`[-1, 1] × [-1, 1]`; a frame carries no reading. -/
def LoopEvent.readingInRange {K : Type} [LinearOrderedField K] : LoopEvent K → Prop
  | .mousemove clientX clientY innerWidth innerHeight =>
    -1 ≤ (Portfolio.mousemove clientX clientY innerWidth innerHeight PortfolioWebsite.initial).mouse.x ∧
    (Portfolio.mousemove clientX clientY innerWidth innerHeight PortfolioWebsite.initial).mouse.x ≤ 1 ∧
    -1 ≤ (Portfolio.mousemove clientX clientY innerWidth innerHeight PortfolioWebsite.initial).mouse.y ∧
    (Portfolio.mousemove clientX clientY innerWidth innerHeight PortfolioWebsite.initial).mouse.y ≤ 1
  | .frame => True

/-- The bounds that the render loop keeps: both pointer vectors in
`[-1, 1] × [-1, 1]`, the camera in `[-0.5, 0.5] × [-0.5, 0.5]` at `z = 5`, and the
rotation of the particle cloud about `x` in `[-0.1, 0.1]`. -/
def LoopBounds {K : Type} [LinearOrderedField K] (self : PortfolioWebsite K) : Prop :=
  (-1 ≤ self.mouse.x ∧ self.mouse.x ≤ 1 ∧ -1 ≤ self.mouse.y ∧ self.mouse.y ≤ 1) ∧
  (-1 ≤ self.mouseTarget.x ∧ self.mouseTarget.x ≤ 1 ∧
    -1 ≤ self.mouseTarget.y ∧ self.mouseTarget.y ≤ 1) ∧
  (∃ position, self.cameraPosition = some position ∧
    -0.5 ≤ position.x ∧ position.x ≤ 0.5 ∧ -0.5 ≤ position.y ∧ position.y ≤ 0.5 ∧
    position.z = 5) ∧
  (∃ rotation, self.particlesRotation = some rotation ∧
    -0.1 ≤ rotation.x ∧ rotation.x ≤ 0.1)

/-! ## Particle colours (`main.js` lines 89-110) -/

/-- The three components of a `THREE.Color`. -/
structure Color (K : Type) where
  r : K
  g : K
  b : K
  deriving DecidableEq, Repr

/-- Modelled from the spec: the library method `Color.lerp(color, alpha)`, which is
not part of `src/`.  By section 4.1 the colours are "linearly interpolated
between two fixed hues per-particle with a random mix factor", on each
component. -/
def Color.lerp {K : Type} [Field K] (self color : Color K) (alpha : K) : Color K :=
  { r := self.r + (color.r - self.r) * alpha
    g := self.g + (color.g - self.g) * alpha
    b := self.b + (color.b - self.b) * alpha }

/-- The colour of a hexadecimal triplet with each byte scaled to `[0, 1]`; one
possible `new THREE.Color(hex)`. -/
def Color.ofHex {K : Type} [Field K] (hex : Nat) : Color K :=
  { r := ((hex / 65536 % 256 : Nat) : K) / 255
    g := ((hex / 256 % 256 : Nat) : K) / 255
    b := ((hex % 256 : Nat) : K) / 255 }

/-- Write of `a[i] = v` on a typed array, the array seen as the function from
index to element. -/
def setAt {K : Type} (a : Nat → K) (i : Nat) (v : K) : Nat → K :=
  fun j => if j = i then v else a j

/-- The two buffers that the loop of `createParticleSystem` fills, and the number
of calls of `Math.random()` made so far. -/
structure ParticleBuffers (K : Type) where
  positions : Nat → K
  colors : Nat → K
  calls : Nat

/-- The exponent `e` of the binary32 binade of a magnitude `q`: the largest `e`
among `127, 126, ...` with `2 ^ e ≤ q`, looked for from exponent `e` downward in
at most `fuel` steps, and the exponent reached when there is none. -/
def binadeFrom {K : Type} [LinearOrderedField K] (q : K) : Nat → ℤ → ℤ
  | 0, e => e
  | fuel + 1, e => if (2 : K) ^ e ≤ q then e else binadeFrom q fuel (e - 1)

/-- The exponent of the binary32 binade of a magnitude `q`, between `-126` (for the
subnormal numbers and the smallest normal ones) and `127`. -/
def binade {K : Type} [LinearOrderedField K] (q : K) : ℤ := binadeFrom q 253 127

/-- The conversion that a store into a `Float32Array` applies to a number: the
nearest binary32 value, ties to the even significand.  The values of a binade of
exponent `e` are the multiples of `2 ^ (e - 23)`.  Stated for magnitudes below
`2 ^ 128`, where the conversion stays finite. -/
def fround32 {K : Type} [LinearOrderedField K] [FloorRing K] (q : K) : K :=
  let ulp : K := 2 ^ (binade |q| - 23)
  let n := q / ulp
  let f : ℤ := ⌊n⌋
  let m : ℤ :=
    if n - f < 1 / 2 then f
    else if 1 / 2 < n - f then f + 1
    else if f % 2 = 0 then f else f + 1
  m * ulp

/-- Write of `a[i] = v` on a `Float32Array`: the element takes the binary32
conversion of `v`. -/
def setFloat32 {K : Type} [LinearOrderedField K] [FloorRing K] (a : Nat → K) (i : Nat) (v : K) :
    Nat → K :=
  setAt a i (fround32 v)

/-- Lines 98-109, the body of the loop for particle `i`.  The `n`-th call of
`Math.random()` returns `random n`.  The arithmetic is exact; `positions` and
`colors` are `Float32Array`s (lines 91-92), so each write converts to binary32. -/
def particleStep {K : Type} [LinearOrderedField K] [FloorRing K] (random : Nat → K)
    (color1 color2 : Color K) (buf : ParticleBuffers K) (i : Nat) : ParticleBuffers K :=
  let i3 := i * 3
  let positions := setFloat32 buf.positions i3 ((random buf.calls - 0.5) * 20)
  let positions := setFloat32 positions (i3 + 1) ((random (buf.calls + 1) - 0.5) * 20)
  let positions := setFloat32 positions (i3 + 2) ((random (buf.calls + 2) - 0.5) * 20)
  let mixedColor := color1.lerp color2 (random (buf.calls + 3))
  let colors := setFloat32 buf.colors i3 mixedColor.r
  let colors := setFloat32 colors (i3 + 1) mixedColor.g
  let colors := setFloat32 colors (i3 + 2) mixedColor.b
  { positions := positions, colors := colors, calls := buf.calls + 4 }

/-- Lines 90-110 of `createParticleSystem`: the two buffers after the loop.
The constructor `mkColor` stands for `new THREE.Color(hex)`, which is not part of
`src/`. -/
def createParticleSystem {K : Type} [LinearOrderedField K] [FloorRing K]
    (mkColor : Nat → Color K) (random : Nat → K) : ParticleBuffers K :=
  let particleCount := 1000
  let positions : Nat → K := fun _ => 0
  let colors : Nat → K := fun _ => 0
  let color1 := mkColor 0x6366f1
  let color2 := mkColor 0x8b5cf6
  (List.range particleCount).foldl (particleStep random color1 color2)
    { positions := positions, colors := colors, calls := 0 }

/-! ## Concrete pages -/

/-- A page with a filled contact form, used to exercise the submit handler. -/
def filledForm : FormPage :=
  { fdName := some "Ada", fdEmail := some "ada@example.org", fdMessage := none
    textInput := some "Ada", emailInput := some "ada@example.org", textarea := some "Hello"
    submitBtn := some { textContent := "Send Message", disabled := false }
    alerts := [], resets := 0, timers := [], defaultPrevented := false, uncaught := [] }

/-- The same page with the message left empty. -/
def emptyMessageForm : FormPage :=
  { filledForm with fdMessage := some "", textarea := some "" }

/-- The `projects` section, 1000 pixels down the document. -/
def projectsSection : Element := { id := "projects", docTop := 1000 }

/-- A page scrolled to the top whose only element with an id is the `projects`
section, with a navbar 60 pixels high and the mobile menu closed. -/
def projectsPage : NavPage :=
  { doc := Document.ofElements [projectsSection]
    navbarOffsetHeight := some 60
    hamburger := some []
    navMenu := some []
    pageYOffset := 0
    scrolls := []
    fragment := ""
    navigations := 0
    defaultPrevented := false
    uncaught := [] }

/-- The nav link to the `projects` section. -/
def projectsLink : NavLink := { href := some "#projects", classList := ["nav-link"] }

/-- A nav link to a section the page does not have. -/
def missingLink : NavLink := { href := some "#missing", classList := ["nav-link"] }

/-- A nav link whose `href` is the bare `#`. -/
def hashLink : NavLink := { href := some "#", classList := ["nav-link"] }

/-- A section whose id, `2024`, is not a CSS identifier. -/
def yearSection : Element := { id := "2024", docTop := 1000 }

/-- A page like `projectsPage` whose only element with an id is the section
`2024`: `getElementById('2024')` finds it, and the selector `#2024`, which the DOM
rejects because an identifier does not start with a digit, raises like the empty
selector and the bare `#`. -/
def yearPage : NavPage :=
  { projectsPage with
    doc :=
      { getElementById := fun id => if id = "2024" then some yearSection else none
        querySelector := fun sel =>
          if sel = "" ∨ sel = "#" ∨ sel = "#2024" then .error .syntaxError else .ok none } }

/-- The nav link to the section `2024`. -/
def yearLink : NavLink := { href := some "#2024", classList := ["nav-link"] }

/-- The nav link to the `about` section, carrying the highlight. -/
def aboutLink : NavLink := { href := some "#about", classList := ["nav-link", "active"] }

/-! # Properties -/

/-! ## Contact form -/

/-- The submit handler once the three reads have succeeded. -/
theorem submitHandler_of_reads (s : FormPage) (name email message : String)
    (hname : readName s = .ok name) (hemail : readEmail s = .ok email)
    (hmessage : readMessage s = .ok message) :
    submitHandler s =
      if name = "" ∨ email = "" ∨ message = "" then
        { s with defaultPrevented := true, alerts := s.alerts ++ [fillAllFields] }
      else
        match s.submitBtn with
        | none => { s with defaultPrevented := true, uncaught := s.uncaught ++ [.typeError] }
        | some submitBtn =>
          { s with
            defaultPrevented := true
            submitBtn := some { textContent := sendingLabel, disabled := true }
            timers := s.timers ++ [{ delay := 2000, originalText := submitBtn.textContent }] } := by
  have hname1 : readName { s with defaultPrevented := true } = .ok name := hname
  have hemail1 : readEmail { s with defaultPrevented := true } = .ok email := hemail
  have hmessage1 : readMessage { s with defaultPrevented := true } = .ok message := hmessage
  unfold submitHandler
  simp only [hname1, hemail1, hmessage1]
  rfl

/-- C1.  A submission whose three values, as the handler reads them, are all
non-empty, on a page whose submit button has label `L`: when the handler returns
the button is disabled and labelled `Sending...`, no alert has been shown, and
one timer of 2000 ms is pending; when that timer fires, the confirmation is
alerted, the form is reset once, the label is `L` again and the button is
enabled. -/
theorem submit_filled_then_timer (s : FormPage) (name email message : String) (btn : Button)
    (hname : readName s = .ok name) (hemail : readEmail s = .ok email)
    (hmessage : readMessage s = .ok message)
    (hn : name ≠ "") (he : email ≠ "") (hm : message ≠ "")
    (hbtn : s.submitBtn = some btn) :
    (submitHandler s).submitBtn = some { textContent := "Sending...", disabled := true } ∧
    (submitHandler s).alerts = s.alerts ∧
    (submitHandler s).resets = s.resets ∧
    (submitHandler s).uncaught = s.uncaught ∧
    (submitHandler s).timers = s.timers ++ [{ delay := 2000, originalText := btn.textContent }] ∧
    (timerFires { delay := 2000, originalText := btn.textContent } (submitHandler s)).alerts =
      s.alerts ++ ["Thank you for your message! I'll get back to you soon."] ∧
    (timerFires { delay := 2000, originalText := btn.textContent } (submitHandler s)).resets =
      s.resets + 1 ∧
    (timerFires { delay := 2000, originalText := btn.textContent } (submitHandler s)).submitBtn =
      some { textContent := btn.textContent, disabled := false } := by
  rw [submitHandler_of_reads s name email message hname hemail hmessage]
  have hno : ¬ (name = "" ∨ email = "" ∨ message = "") := by
    rintro (h | h | h)
    · exact hn h
    · exact he h
    · exact hm h
  rw [if_neg hno, hbtn]
  simp [timerFires, sendingLabel, thankYou]

/-- C1 at a concrete page: the form filled by Ada, button labelled `Send Message`. -/
theorem submit_filled_then_timer_witness :
    (submitHandler filledForm).submitBtn = some { textContent := "Sending...", disabled := true } ∧
    (timerFires { delay := 2000, originalText := "Send Message" } (submitHandler filledForm)).submitBtn =
      some { textContent := "Send Message", disabled := false } :=
  have h := submit_filled_then_timer filledForm "Ada" "ada@example.org" "Hello"
    { textContent := "Send Message", disabled := false } rfl rfl rfl (by decide) (by decide)
    (by decide) rfl
  ⟨h.1, h.2.2.2.2.2.2.2⟩

/-- C2.  A submission in which at least one of the three values, as the handler
reads them, is empty: the handler alerts `Please fill in all fields` and returns
with the button, the pending timers and the reset count as they were, so that no
confirmation follows.  Conversely a submission that schedules a timer or touches
the button had all three values non-empty. -/
theorem submit_missing_field_aborts (s : FormPage) (name email message : String)
    (hname : readName s = .ok name) (hemail : readEmail s = .ok email)
    (hmessage : readMessage s = .ok message) :
    ((name = "" ∨ email = "" ∨ message = "") →
      submitHandler s =
        { s with defaultPrevented := true, alerts := s.alerts ++ ["Please fill in all fields"] }) ∧
    ((name = "" ∨ email = "" ∨ message = "") →
      (submitHandler s).alerts = s.alerts ++ ["Please fill in all fields"] ∧
      (submitHandler s).submitBtn = s.submitBtn ∧
      (submitHandler s).timers = s.timers ∧
      (submitHandler s).resets = s.resets ∧
      (submitHandler s).uncaught = s.uncaught) ∧
    (((submitHandler s).timers ≠ s.timers ∨ (submitHandler s).submitBtn ≠ s.submitBtn) →
      name ≠ "" ∧ email ≠ "" ∧ message ≠ "") := by
  have key : (name = "" ∨ email = "" ∨ message = "") →
      submitHandler s =
        { s with defaultPrevented := true, alerts := s.alerts ++ ["Please fill in all fields"] } := by
    intro h
    rw [submitHandler_of_reads s name email message hname hemail hmessage, if_pos h]
    rfl
  refine ⟨key, ?_, ?_⟩
  · intro h
    rw [key h]
    simp
  · intro h
    by_contra hcon
    have hor : name = "" ∨ email = "" ∨ message = "" := by
      by_contra hno
      push_neg at hno
      exact hcon hno
    rw [key hor] at h
    simp at h

/-- C2 at a concrete page: the form submitted with an empty message. -/
theorem submit_missing_field_aborts_witness :
    (submitHandler emptyMessageForm).alerts = ["Please fill in all fields"] ∧
    (submitHandler emptyMessageForm).submitBtn =
      some { textContent := "Send Message", disabled := false } ∧
    (submitHandler emptyMessageForm).timers = [] :=
  have h := (submit_missing_field_aborts emptyMessageForm "Ada" "ada@example.org" "" rfl rfl rfl).2.1
    (Or.inr (Or.inr rfl))
  ⟨h.1, h.2.1, h.2.2.1⟩

/-! ## Navigation links -/

/-- A string built as `#` followed by `id` starts with `#`. -/
theorem startsWith_hash_append (id : String) : startsWith ("#" ++ id) "#" = true := by
  simp [startsWith]

/-- Dropping the `#` of `#` followed by `id` leaves `id`. -/
theorem sliceFrom_hash_append (id : String) : sliceFrom ("#" ++ id) 1 = id := by
  simp [sliceFrom, String.ext_iff]

/-- The `DOMContentLoaded` listener on a link `#id` whose section exists. -/
theorem loadedLinkClick_of_target (s : NavPage) (link : NavLink) (id : String) (el : Element)
    (hhref : link.href = some ("#" ++ id)) (hget : s.doc.getElementById id = some el) :
    (loadedLinkClick link s).scrolls =
        s.scrolls ++ [.windowScrollTo (el.docTop - s.navbarOffsetHeight.getD 0 - 8)] ∧
      (loadedLinkClick link s).fragment = "#" ++ id ∧
      (loadedLinkClick link s).doc = s.doc ∧
      (loadedLinkClick link s).navigations = s.navigations ∧
      (loadedLinkClick link s).uncaught = s.uncaught ∧
      (loadedLinkClick link s).defaultPrevented = true := by
  have hscroll : scrollToSection id { s with defaultPrevented := true } =
      { s with
        defaultPrevented := true
        scrolls := s.scrolls ++ [.windowScrollTo (el.docTop - s.navbarOffsetHeight.getD 0 - 8)] } := by
    unfold scrollToSection
    simp only [hget]
    cases hnav : s.navbarOffsetHeight <;> simp
  unfold loadedLinkClick
  simp only [hhref, Option.getD_some, startsWith_hash_append, sliceFrom_hash_append, if_true,
    hscroll]
  cases hmenu : s.navMenu with
  | none => simp [NavPage.replaceState]
  | some menu =>
    by_cases hopen : ClassList.contains menu "open" = true
    · simp [NavPage.replaceState, hopen]
    · simp [NavPage.replaceState, hopen]

/-- The `setupNavigation` listener on a link `#id` whose section exists. -/
theorem setupLinkClick_of_target (s : NavPage) (link : NavLink) (id : String) (el : Element)
    (hhref : link.href = some ("#" ++ id))
    (hquery : s.doc.querySelector ("#" ++ id) = .ok (some el)) :
    (setupLinkClick link s).scrolls = s.scrolls ++ [.gsapScrollTo el 80] ∧
      (setupLinkClick link s).fragment = "#" ++ id ∧
      (setupLinkClick link s).navigations = s.navigations ∧
      (setupLinkClick link s).uncaught = s.uncaught ∧
      (setupLinkClick link s).defaultPrevented = true := by
  unfold setupLinkClick
  simp [hhref, startsWith_hash_append, hquery, NavPage.replaceState]

/-- C3 at the page `projectsPage` (navbar 60 pixels high, `projects` section 1000
pixels down): activating the link `#projects` requests a scroll to 932 from the
`DOMContentLoaded` listener and a scroll to 920 from the `setupNavigation`
listener, and only the second is the section's top less 80. -/
theorem activate_link_first_scroll_offset :
    projectsPage.doc.getElementById "projects" = some projectsSection ∧
    projectsPage.doc.querySelector "#projects" = .ok (some projectsSection) ∧
    (activateLink projectsLink projectsPage).scrolls.map ScrollRequest.destination = [932, 920] ∧
    ¬ (∀ r ∈ (activateLink projectsLink projectsPage).scrolls,
        r.destination = projectsSection.docTop - 80) := by
  decide

/-- Activation of a nav link `#id` when both `getElementById(id)` and
`querySelector('#id')` find the section `el`.  Two scrolls are requested: the
`DOMContentLoaded` listener one to the section's top less the navbar's height (0
without navbar) less 8, then the `setupNavigation` listener one to the section's
top less 80.  All the requested destinations are the section's top less 80
exactly when the navbar is 72 pixels high.  The fragment becomes `#id`, no
navigation takes place and no exception is raised. -/
theorem activate_link_scrolls (s : NavPage) (link : NavLink) (id : String) (el : Element)
    (hhref : link.href = some ("#" ++ id))
    (hget : s.doc.getElementById id = some el)
    (hquery : s.doc.querySelector ("#" ++ id) = .ok (some el)) :
    (activateLink link s).scrolls =
      s.scrolls ++ [.windowScrollTo (el.docTop - s.navbarOffsetHeight.getD 0 - 8),
        .gsapScrollTo el 80] ∧
    ((activateLink link s).scrolls.drop s.scrolls.length).map ScrollRequest.destination =
      [el.docTop - s.navbarOffsetHeight.getD 0 - 8, el.docTop - 80] ∧
    ((∀ r ∈ (activateLink link s).scrolls.drop s.scrolls.length,
        r.destination = el.docTop - 80) ↔ s.navbarOffsetHeight.getD 0 = 72) ∧
    (activateLink link s).fragment = "#" ++ id ∧
    (activateLink link s).navigations = s.navigations ∧
    (activateLink link s).uncaught = s.uncaught := by
  obtain ⟨h1, h2, h3, h4, h5, h6⟩ :=
    loadedLinkClick_of_target { s with defaultPrevented := false } link id el hhref hget
  have hquery1 : (loadedLinkClick link { s with defaultPrevented := false }).doc.querySelector
      ("#" ++ id) = .ok (some el) := by
    rw [h3]
    exact hquery
  obtain ⟨k1, k2, k3, k4, k5⟩ :=
    setupLinkClick_of_target (loadedLinkClick link { s with defaultPrevented := false }) link id el
      hhref hquery1
  have hact : activateLink link s =
      setupLinkClick link (loadedLinkClick link { s with defaultPrevented := false }) := by
    unfold activateLink defaultAction
    rw [if_pos k5]
  have hscrolls : (activateLink link s).scrolls =
      s.scrolls ++ [.windowScrollTo (el.docTop - s.navbarOffsetHeight.getD 0 - 8),
        .gsapScrollTo el 80] := by
    rw [hact, k1, h1]
    simp
  refine ⟨hscrolls, ?_, ?_, ?_, ?_, ?_⟩
  · rw [hscrolls]
    simp [ScrollRequest.destination]
  · rw [hscrolls]
    simp only [List.drop_left, List.mem_cons, List.mem_singleton, List.not_mem_nil, or_false,
      forall_eq_or_imp, forall_eq, ScrollRequest.destination]
    constructor
    · rintro ⟨h, -⟩
      omega
    · intro h
      constructor
      · omega
      · trivial
  · rw [hact, k2]
  · rw [hact, k3, h4]
  · rw [hact, k4, h5]

/-- The two scrolls and the fragment at the page `projectsPage`. -/
theorem activate_link_scrolls_witness :
    (activateLink projectsLink projectsPage).scrolls =
      [.windowScrollTo (1000 - 60 - 8), .gsapScrollTo projectsSection 80] ∧
    (activateLink projectsLink projectsPage).fragment = "#projects" :=
  have h := activate_link_scrolls projectsPage projectsLink "projects" projectsSection
    (by decide) (by decide) (by decide)
  ⟨h.1, h.2.2.2.1⟩

/-- Activation of the link `#2024` at the page `yearPage`, whose section exists:
the `DOMContentLoaded` listener requests its scroll to 932 and sets the fragment,
and the `setupNavigation` listener raises at `querySelector('#2024')` and
requests none. -/
theorem activate_digit_id_link_raises :
    yearPage.doc.getElementById "2024" = some yearSection ∧
    yearPage.doc.querySelector "#2024" = .error .syntaxError ∧
    (activateLink yearLink yearPage).scrolls = [.windowScrollTo 932] ∧
    (activateLink yearLink yearPage).uncaught = [.syntaxError] ∧
    (activateLink yearLink yearPage).fragment = "#2024" := by
  decide

/-- C4 at the page `projectsPage`, whose fragment is empty, and the link
`#missing`, which resolves to no element: no scroll is requested and nothing is
raised, but the fragment of the URL becomes `#missing`. -/
theorem activate_missing_link_rewrites_fragment :
    projectsPage.doc.getElementById "missing" = none ∧
    projectsPage.doc.querySelector "#missing" = .ok none ∧
    projectsPage.fragment = "" ∧
    (activateLink missingLink projectsPage).scrolls = [] ∧
    (activateLink missingLink projectsPage).uncaught = [] ∧
    (activateLink missingLink projectsPage).fragment = "#missing" := by
  decide

/-- The `DOMContentLoaded` listener rewrites the fragment whether or not the link
resolves: after it the fragment is `#` followed by the id it looked up. -/
theorem loadedLinkClick_fragment (s : NavPage) (link : NavLink) :
    (loadedLinkClick link s).fragment =
      "#" ++ (if startsWith (link.href.getD "") "#" then sliceFrom (link.href.getD "") 1
        else link.href.getD "") := by
  unfold loadedLinkClick
  cases hmenu : (scrollToSection
      (if startsWith (link.href.getD "") "#" then sliceFrom (link.href.getD "") 1
        else link.href.getD "") { s with defaultPrevented := true }).navMenu with
  | none => simp [NavPage.replaceState, hmenu]
  | some menu =>
    by_cases hopen : ClassList.contains menu "open" = true
    · simp [NavPage.replaceState, hmenu, hopen]
    · simp [NavPage.replaceState, hmenu, hopen]

/-! ## Mobile menu -/

/-- Membership in a class list after `remove`. -/
theorem ClassList.mem_remove (l : ClassList) (c d : String) :
    c ∈ ClassList.remove l d ↔ c ∈ l ∧ c ≠ d := by
  simp [ClassList.remove]

/-- Membership in a class list after `toggle`. -/
theorem ClassList.mem_toggle (l : ClassList) (c d : String) :
    c ∈ ClassList.toggle l d ↔ (c ∈ l ∧ c ≠ d) ∨ (c = d ∧ d ∉ l) := by
  unfold ClassList.toggle
  by_cases h : d ∈ l
  · simp [h, ClassList.mem_remove]
  · simp only [h, if_false, List.mem_append, List.mem_singleton, not_false_eq_true, and_true]
    constructor
    · rintro (hc | hc)
      · by_cases hcd : c = d
        · exact Or.inr hcd
        · exact Or.inl ⟨hc, hcd⟩
      · exact Or.inr hc
    · rintro (hc | hc)
      · exact Or.inl hc.1
      · exact Or.inr hc

/-- The scroll helper leaves the menu elements alone. -/
theorem scrollToSection_menu (id : String) (s : NavPage) :
    (scrollToSection id s).hamburger = s.hamburger ∧
      (scrollToSection id s).navMenu = s.navMenu ∧
      (scrollToSection id s).doc = s.doc := by
  unfold scrollToSection
  cases s.doc.getElementById id <;> simp

/-- The `DOMContentLoaded` link listener on the two menu elements. -/
theorem loadedLinkClick_menu (link : NavLink) (s : NavPage) (h m : ClassList)
    (hh : s.hamburger = some h) (hm : s.navMenu = some m) :
    (loadedLinkClick link s).hamburger =
        some (if "open" ∈ m then ClassList.remove h "open" else h) ∧
      (loadedLinkClick link s).navMenu =
        some (if "open" ∈ m then ClassList.remove m "open" else m) ∧
      (loadedLinkClick link s).doc = s.doc := by
  obtain ⟨e1, e2, e3⟩ := scrollToSection_menu
    (if startsWith (link.href.getD "") "#" then sliceFrom (link.href.getD "") 1
      else link.href.getD "") { s with defaultPrevented := true }
  have e1' := e1.trans hh
  have e2' := e2.trans hm
  unfold loadedLinkClick
  simp only [e2']
  by_cases hopen : "open" ∈ m
  · simp [NavPage.replaceState, ClassList.contains, hopen, e1', e3]
  · simp [NavPage.replaceState, ClassList.contains, hopen, e1', e2', e3]

/-- The `setupNavigation` link listener on the two menu elements: it clears
`active` on both unless `querySelector` raises, in which case it changes neither. -/
theorem setupLinkClick_menu (link : NavLink) (s : NavPage) (h m : ClassList)
    (hh : s.hamburger = some h) (hm : s.navMenu = some m) :
    ((∃ err, s.doc.querySelector (link.href.getD "") = .error err) →
        (setupLinkClick link s).hamburger = some h ∧ (setupLinkClick link s).navMenu = some m) ∧
      ((∃ t, s.doc.querySelector (link.href.getD "") = .ok t) →
        (setupLinkClick link s).hamburger = some (ClassList.remove h "active") ∧
        (setupLinkClick link s).navMenu = some (ClassList.remove m "active")) := by
  unfold setupLinkClick
  constructor
  · rintro ⟨err, herr⟩
    simp [herr, hh, hm]
  · rintro ⟨t, ht⟩
    cases t with
    | none => simp [ht, hh, hm]
    | some target =>
      by_cases hs : startsWith (link.href.getD "") "#" = true
      · simp [ht, hh, hm, hs, NavPage.replaceState]
      · simp [ht, hh, hm, hs, NavPage.replaceState]

/-- The default action leaves the menu elements alone. -/
theorem defaultAction_menu (link : NavLink) (s : NavPage) :
    (defaultAction link s).hamburger = s.hamburger ∧
      (defaultAction link s).navMenu = s.navMenu := by
  unfold defaultAction
  by_cases h : s.defaultPrevented = true <;> simp [h]

/-- The `DOMContentLoaded` link listener leaves the document alone. -/
theorem loadedLinkClick_of_doc (link : NavLink) (s : NavPage) :
    (loadedLinkClick link s).doc = s.doc := by
  obtain ⟨_, e2, e3⟩ := scrollToSection_menu
    (if startsWith (link.href.getD "") "#" then sliceFrom (link.href.getD "") 1
      else link.href.getD "") { s with defaultPrevented := true }
  unfold loadedLinkClick
  cases hmenu : (scrollToSection
      (if startsWith (link.href.getD "") "#" then sliceFrom (link.href.getD "") 1
        else link.href.getD "") { s with defaultPrevented := true }).navMenu with
  | none => simp [NavPage.replaceState, hmenu, e3]
  | some menu =>
    by_cases hopen : ClassList.contains menu "open" = true
    · simp [NavPage.replaceState, hmenu, hopen, e3]
    · simp [NavPage.replaceState, hmenu, hopen, e3]

/-- The `setupNavigation` link listener leaves the document alone. -/
theorem setupLinkClick_doc (link : NavLink) (s : NavPage) :
    (setupLinkClick link s).doc = s.doc := by
  unfold setupLinkClick
  cases hq : s.doc.querySelector (link.href.getD "") with
  | error err => simp [hq]
  | ok t =>
    cases t with
    | none => simp [hq]
    | some target =>
      by_cases hs : startsWith (link.href.getD "") "#" = true
      · simp [hq, hs, NavPage.replaceState]
      · simp [hq, hs, NavPage.replaceState]

/-- A hamburger click keeps the two elements in agreement. -/
theorem hamburgerClick_agree (s : NavPage) (hs : MenuAgree s) : MenuAgree (hamburgerClick s) := by
  obtain ⟨h, m, hh, hm, ha, ho⟩ := hs
  refine ⟨ClassList.toggle (ClassList.toggle h "open") "active",
    ClassList.toggle (ClassList.toggle m "open") "active", ?_, ?_, ?_, ?_⟩
  · simp [hamburgerClick, hh, hm, setupHamburgerClick, loadedHamburgerClick]
  · simp [hamburgerClick, hh, hm, setupHamburgerClick, loadedHamburgerClick]
  · simp only [ClassList.mem_toggle]
    simp [ha]
  · simp only [ClassList.mem_toggle]
    simp [ho]

/-- A link activation keeps the two elements in agreement and leaves `open` on
neither; when `querySelector` accepts the `href` it leaves `active` on neither. -/
theorem activateLink_menu (link : NavLink) (s : NavPage) (hs : MenuAgree s) :
    MenuAgree (activateLink link s) ∧
      (∀ h m, (activateLink link s).hamburger = some h → (activateLink link s).navMenu = some m →
        "open" ∉ h ∧ "open" ∉ m) ∧
      ((∃ t, s.doc.querySelector (link.href.getD "") = .ok t) → MenuClosed (activateLink link s)) := by
  obtain ⟨h, m, hh, hm, ha, ho⟩ := hs
  obtain ⟨l1, l2, l3⟩ := loadedLinkClick_menu link { s with defaultPrevented := false } h m hh hm
  obtain ⟨d1, d2⟩ := defaultAction_menu link
    (setupLinkClick link (loadedLinkClick link { s with defaultPrevented := false }))
  obtain ⟨k1, k2⟩ := setupLinkClick_menu link
    (loadedLinkClick link { s with defaultPrevented := false }) _ _ l1 l2
  have hact1 : (activateLink link s).hamburger =
      (setupLinkClick link (loadedLinkClick link { s with defaultPrevented := false })).hamburger := d1
  have hact2 : (activateLink link s).navMenu =
      (setupLinkClick link (loadedLinkClick link { s with defaultPrevented := false })).navMenu := d2
  have hdoc : (loadedLinkClick link { s with defaultPrevented := false }).doc = s.doc := l3
  rw [hdoc] at k1 k2
  have hh1 : "open" ∉ (if "open" ∈ m then ClassList.remove h "open" else h) := by
    by_cases hopen : "open" ∈ m
    · simp [hopen, ClassList.mem_remove]
    · simpa [hopen] using fun hp => hopen (ho.mp hp)
  have hm1 : "open" ∉ (if "open" ∈ m then ClassList.remove m "open" else m) := by
    by_cases hopen : "open" ∈ m
    · simp [hopen, ClassList.mem_remove]
    · simp [hopen]
  have ha1 : "active" ∈ (if "open" ∈ m then ClassList.remove h "open" else h) ↔
      "active" ∈ (if "open" ∈ m then ClassList.remove m "open" else m) := by
    by_cases hopen : "open" ∈ m
    · simp [hopen, ClassList.mem_remove, ha]
    · simp [hopen, ha]
  cases hq : s.doc.querySelector (link.href.getD "") with
  | error err =>
    obtain ⟨r1, r2⟩ := k1 ⟨err, hq⟩
    rw [← hact1] at r1
    rw [← hact2] at r2
    refine ⟨⟨_, _, r1, r2, ha1, ?_⟩, ?_, ?_⟩
    · exact ⟨fun hp => absurd hp hh1, fun hp => absurd hp hm1⟩
    · intro h2 m2 e1 e2
      rw [r1] at e1
      rw [r2] at e2
      cases e1
      cases e2
      exact ⟨hh1, hm1⟩
    · rintro ⟨t, ht⟩
      cases ht
  | ok t =>
    obtain ⟨r1, r2⟩ := k2 ⟨t, hq⟩
    rw [← hact1] at r1
    rw [← hact2] at r2
    have c1 : "active" ∉ ClassList.remove (if "open" ∈ m then ClassList.remove h "open" else h)
        "active" := by simp [ClassList.mem_remove]
    have c2 : "active" ∉ ClassList.remove (if "open" ∈ m then ClassList.remove m "open" else m)
        "active" := by simp [ClassList.mem_remove]
    have c3 : "open" ∉ ClassList.remove (if "open" ∈ m then ClassList.remove h "open" else h)
        "active" := fun hp => hh1 ((ClassList.mem_remove _ _ _).mp hp).1
    have c4 : "open" ∉ ClassList.remove (if "open" ∈ m then ClassList.remove m "open" else m)
        "active" := fun hp => hm1 ((ClassList.mem_remove _ _ _).mp hp).1
    refine ⟨⟨_, _, r1, r2, ?_, ?_⟩, ?_, ?_⟩
    · exact ⟨fun hp => absurd hp c1, fun hp => absurd hp c2⟩
    · exact ⟨fun hp => absurd hp c3, fun hp => absurd hp c4⟩
    · intro h2 m2 e1 e2
      rw [r1] at e1
      rw [r2] at e2
      cases e1
      cases e2
      exact ⟨c3, c4⟩
    · intro _
      exact ⟨_, _, r1, r2, c1, c2, c3, c4⟩

/-- The part of C10 that holds on the code: from a page with both elements present
and the four flags clear, after every sequence of hamburger clicks and link
activations the hamburger and the menu carry the same flags, and an activation of
a link whose `href` is accepted by `querySelector` leaves none of the four set. -/
theorem menu_flags_agree (s : NavPage) (hs : MenuClosed s) (evs : List MenuEvent) :
    MenuAgree (menuRun s evs) ∧
      ∀ link : NavLink, (∃ t, s.doc.querySelector (link.href.getD "") = .ok t) →
        MenuClosed (menuRun s (evs ++ [.link link])) := by
  have hagree0 : MenuAgree s := by
    obtain ⟨h, m, hh, hm, a1, a2, o1, o2⟩ := hs
    exact ⟨h, m, hh, hm, ⟨fun hp => absurd hp a1, fun hp => absurd hp a2⟩,
      ⟨fun hp => absurd hp o1, fun hp => absurd hp o2⟩⟩
  have hstep : ∀ (t : NavPage) (e : MenuEvent), MenuAgree t → MenuAgree (menuStep t e) := by
    intro t e ht
    cases e with
    | hamburger => exact hamburgerClick_agree t ht
    | link l => exact (activateLink_menu l t ht).1
  have hdocStep : ∀ (t : NavPage) (e : MenuEvent), (menuStep t e).doc = t.doc := by
    intro t e
    cases e with
    | hamburger =>
      simp only [menuStep, hamburgerClick]
      cases t.hamburger <;> rfl
    | link l =>
      simp only [menuStep, activateLink, defaultAction]
      have hl := (loadedLinkClick_of_doc l { t with defaultPrevented := false })
      have hsd := setupLinkClick_doc l (loadedLinkClick l { t with defaultPrevented := false })
      split
      · rw [hsd, hl]
      · show (setupLinkClick l (loadedLinkClick l { t with defaultPrevented := false })).doc = _
        rw [hsd, hl]
  have hrun : ∀ (evs : List MenuEvent) (t : NavPage), MenuAgree t →
      MenuAgree (menuRun t evs) ∧ (menuRun t evs).doc = t.doc := by
    intro evs
    induction evs with
    | nil => intro t ht; exact ⟨ht, rfl⟩
    | cons e evs ih =>
      intro t ht
      obtain ⟨i1, i2⟩ := ih (menuStep t e) (hstep t e ht)
      exact ⟨i1, i2.trans (hdocStep t e)⟩
  obtain ⟨r1, r2⟩ := hrun evs s hagree0
  refine ⟨r1, ?_⟩
  intro link hq
  have : menuRun s (evs ++ [.link link]) = activateLink link (menuRun s evs) := by
    simp [menuRun, menuStep]
  rw [this]
  apply (activateLink_menu link _ r1).2.2
  rw [r2]
  exact hq

/-- C10 at the page `projectsPage`, with both elements present and the four flags
clear: after a hamburger click and the activation of the link whose `href` is
`#`, the `setupNavigation` listener has raised at `querySelector('#')` before
its `classList.remove` calls, and `active` is still set on both elements. -/
theorem menu_left_open_by_hash_link :
    projectsPage.hamburger = some [] ∧ projectsPage.navMenu = some [] ∧
    projectsPage.doc.querySelector "#" = .error .syntaxError ∧
    (menuRun projectsPage [.hamburger]).hamburger = some ["open", "active"] ∧
    (menuRun projectsPage [.hamburger, .link hashLink]).hamburger = some ["active"] ∧
    (menuRun projectsPage [.hamburger, .link hashLink]).navMenu = some ["active"] ∧
    (menuRun projectsPage [.hamburger, .link hashLink]).uncaught = [.syntaxError] := by
  decide

/-! ## Active link highlighting -/

/-- Membership in a class list after `add`. -/
theorem ClassList.mem_add (l : ClassList) (c d : String) :
    c ∈ ClassList.add l d ↔ c ∈ l ∨ c = d := by
  unfold ClassList.add
  by_cases h : d ∈ l
  · simp only [h, if_true]
    constructor
    · exact Or.inl
    · rintro (hc | hc)
      · exact hc
      · rw [hc]
        exact h
  · simp [h]

/-- A link after `onEnter`: highlighted exactly when it points at the section. -/
theorem onEnter_active (id : String) (navLinks : List NavLink) (l : NavLink)
    (hl : l ∈ onEnter id navLinks) :
    "active" ∈ l.classList ↔ l.href = some ("#" ++ id) := by
  simp only [onEnter, List.mem_map] at hl
  obtain ⟨l0, -, rfl⟩ := hl
  by_cases h : l0.href = some ("#" ++ id)
  · simp [h, ClassList.mem_add]
  · simp [h, ClassList.mem_remove]

/-- A link after `onLeave` is highlighted only if it was and points elsewhere. -/
theorem onLeave_active (id : String) (navLinks : List NavLink) (l : NavLink)
    (hl : l ∈ onLeave id navLinks) (hact : "active" ∈ l.classList) :
    ∃ l0 ∈ navLinks, l0.href = l.href ∧ "active" ∈ l0.classList := by
  simp only [onLeave, List.mem_map] at hl
  obtain ⟨l0, hmem, rfl⟩ := hl
  by_cases h : l0.href = some ("#" ++ id)
  · simp [h, ClassList.mem_remove] at hact
  · refine ⟨l0, hmem, ?_, ?_⟩
    · simp [h]
    · simpa [h] using hact

/-- Invariant of the highlighting: once a section has been entered, every
highlighted link points at the section entered last. -/
theorem sectionRun_active (evs : List SectionEvent) (id : String) (navLinks : List NavLink)
    (hinv : ∀ l ∈ navLinks, "active" ∈ l.classList → l.href = some ("#" ++ id)) :
    ∀ l ∈ sectionRun navLinks evs, "active" ∈ l.classList →
      l.href = some ("#" ++ lastEntered id evs) := by
  induction evs generalizing id navLinks with
  | nil => simpa [sectionRun, lastEntered] using hinv
  | cons e evs ih =>
    cases e with
    | enter j =>
      have := ih j (onEnter j navLinks) (fun l hl hact => (onEnter_active j navLinks l hl).mp hact)
      simpa [sectionRun, sectionStep, lastEntered] using this
    | leave j =>
      have := ih id (onLeave j navLinks) (fun l hl hact => by
        obtain ⟨l0, hmem, hhref, hact0⟩ := onLeave_active j navLinks l hl hact
        rw [← hhref]
        exact hinv l0 hmem hact0)
      simpa [sectionRun, sectionStep, lastEntered] using this

/-- C9.  Right after `onEnter` for the section `id`, a nav link carries `active`
exactly when its `href` is `#` followed by `id`.  In every state reached from
there by further `onEnter` and `onLeave` callbacks, every link carrying `active`
has as `href` the `#` followed by the id of the section entered last, so any two
highlighted links point at the same section.  And `onLeave` for a section keeps
the links in place, takes `active` and nothing else off each link pointing at
that section, and leaves every other link as it was. -/
theorem nav_highlight (id : String) (navLinks : List NavLink) :
    (∀ l ∈ onEnter id navLinks, "active" ∈ l.classList ↔ l.href = some ("#" ++ id)) ∧
    (∀ evs : List SectionEvent, ∀ l ∈ sectionRun (onEnter id navLinks) evs,
      "active" ∈ l.classList → l.href = some ("#" ++ lastEntered id evs)) ∧
    (∀ evs : List SectionEvent, ∀ l1 ∈ sectionRun (onEnter id navLinks) evs,
      ∀ l2 ∈ sectionRun (onEnter id navLinks) evs,
      "active" ∈ l1.classList → "active" ∈ l2.classList → l1.href = l2.href) ∧
    (∀ (left : String) (links : List NavLink),
      (onLeave left links).length = links.length ∧
      ∀ (i : Nat) (l : NavLink), links[i]? = some l →
        ∃ l1, (onLeave left links)[i]? = some l1 ∧ l1.href = l.href ∧
          (l.href = some ("#" ++ left) →
            ∀ c, c ∈ l1.classList ↔ c ∈ l.classList ∧ c ≠ "active") ∧
          (l.href ≠ some ("#" ++ left) → l1 = l)) := by
  have hrun := fun evs => sectionRun_active evs id (onEnter id navLinks)
    (fun l hl hact => (onEnter_active id navLinks l hl).mp hact)
  refine ⟨fun l hl => onEnter_active id navLinks l hl, hrun, ?_, ?_⟩
  · intro evs l1 h1 l2 h2 a1 a2
    rw [hrun evs l1 h1 a1, hrun evs l2 h2 a2]
  · intro left links
    refine ⟨by simp [onLeave], ?_⟩
    intro i l hi
    by_cases h : l.href = some ("#" ++ left)
    · refine ⟨{ l with classList := ClassList.remove l.classList "active" }, ?_, rfl, ?_, ?_⟩
      · simp [onLeave, hi, h]
      · intro _ c
        exact ClassList.mem_remove _ _ _
      · intro hne
        exact absurd h hne
    · refine ⟨l, ?_, rfl, ?_, ?_⟩
      · simp [onLeave, hi, h]
      · intro heq
        exact absurd heq h
      · intro _
        rfl

/-- C9 on the links `about` (highlighted) and `projects`, when the `projects`
section is entered and then left: after the entry the link `projects` carries
`active` as its `href` says, and the link `about` has lost it. -/
theorem nav_highlight_witness :
    ("active" ∈ ({ href := some "#projects", classList := ["nav-link", "active"] } : NavLink).classList ↔
      ({ href := some "#projects", classList := ["nav-link", "active"] } : NavLink).href =
        some ("#" ++ "projects")) ∧
    onEnter "projects" [aboutLink, projectsLink] =
      [{ href := some "#about", classList := ["nav-link"] },
       { href := some "#projects", classList := ["nav-link", "active"] }] ∧
    onLeave "projects" (onEnter "projects" [aboutLink, projectsLink]) =
      [{ href := some "#about", classList := ["nav-link"] },
       { href := some "#projects", classList := ["nav-link"] }] :=
  ⟨(nav_highlight "projects" [aboutLink, projectsLink]).1
      { href := some "#projects", classList := ["nav-link", "active"] } (by decide),
    by decide, by decide⟩

/-! ## Pointer tracking -/

/-- C5.  For a window of width `W > 0` and height `H > 0` and a pointer at
`(clientX, clientY)` inside it, the coordinates the `mousemove` listener stores
are `(clientX / W) * 2 - 1` and `-(clientY / H) * 2 + 1`, both in `[-1, 1]`;
the first is `-1` at the left edge and `1` at the right edge, the second `1` at
the top edge and `-1` at the bottom edge. -/
theorem mousemove_normalised (self : PortfolioWebsite ℚ) (clientX clientY W H : ℚ)
    (hW : 0 < W) (hH : 0 < H)
    (hx0 : 0 ≤ clientX) (hx1 : clientX ≤ W) (hy0 : 0 ≤ clientY) (hy1 : clientY ≤ H) :
    (mousemove clientX clientY W H self).mouse.x = (clientX / W) * 2 - 1 ∧
    (mousemove clientX clientY W H self).mouse.y = -(clientY / H) * 2 + 1 ∧
    -1 ≤ (mousemove clientX clientY W H self).mouse.x ∧
    (mousemove clientX clientY W H self).mouse.x ≤ 1 ∧
    -1 ≤ (mousemove clientX clientY W H self).mouse.y ∧
    (mousemove clientX clientY W H self).mouse.y ≤ 1 ∧
    (mousemove 0 clientY W H self).mouse.x = -1 ∧
    (mousemove W clientY W H self).mouse.x = 1 ∧
    (mousemove clientX 0 W H self).mouse.y = 1 ∧
    (mousemove clientX H W H self).mouse.y = -1 := by
  have hxl : 0 ≤ clientX / W := div_nonneg hx0 hW.le
  have hxu : clientX / W ≤ 1 := (div_le_one hW).mpr hx1
  have hyl : 0 ≤ clientY / H := div_nonneg hy0 hH.le
  have hyu : clientY / H ≤ 1 := (div_le_one hH).mpr hy1
  have hWW : W / W = 1 := div_self hW.ne.symm
  have hHH : H / H = 1 := div_self hH.ne.symm
  simp only [mousemove]
  refine ⟨trivial, trivial, ?_, ?_, ?_, ?_, ?_, ?_, ?_, ?_⟩
  · linarith
  · linarith
  · linarith
  · linarith
  · norm_num
  · rw [hWW]; norm_num
  · norm_num
  · rw [hHH]; norm_num

/-- C5 for a pointer at `(480, 270)` in a window of 1920 by 1080. -/
theorem mousemove_normalised_witness :
    (mousemove 480 270 1920 1080 (PortfolioWebsite.initial : PortfolioWebsite ℚ)).mouse.x =
      (480 / 1920 : ℚ) * 2 - 1 ∧
    -1 ≤ (mousemove 480 270 1920 1080 (PortfolioWebsite.initial : PortfolioWebsite ℚ)).mouse.x ∧
    (mousemove 480 270 1920 1080 (PortfolioWebsite.initial : PortfolioWebsite ℚ)).mouse.y ≤ 1 :=
  have h := mousemove_normalised (PortfolioWebsite.initial : PortfolioWebsite ℚ) 480 270 1920 1080
    (by norm_num) (by norm_num) (by norm_num) (by norm_num) (by norm_num) (by norm_num)
  ⟨h.1, h.2.2.1, h.2.2.2.2.2.1⟩

/-! ## Pointer easing -/

/-- A frame leaves the live pointer reading alone. -/
theorem animate_mouse (self : PortfolioWebsite ℝ) : (animate self).mouse = self.mouse := rfl

/-- A frame moves the eased pointer by a twentieth of its distance to the reading. -/
theorem animate_mouseTarget (self : PortfolioWebsite ℝ) :
    (animate self).mouseTarget.x =
        self.mouseTarget.x + (self.mouse.x - self.mouseTarget.x) * 0.05 ∧
      (animate self).mouseTarget.y =
        self.mouseTarget.y + (self.mouse.y - self.mouseTarget.y) * 0.05 :=
  ⟨rfl, rfl⟩

/-- Frames leave the live pointer reading alone. -/
theorem frames_mouse (n : Nat) (self : PortfolioWebsite ℝ) : (frames n self).mouse = self.mouse := by
  induction n with
  | zero => rfl
  | succ n ih =>
    rw [frames, Function.iterate_succ_apply', animate_mouse]
    exact ih

/-- After `n` frames the offset of the eased pointer from a constant reading is
the initial offset times `0.95 ^ n`. -/
theorem frames_mouseTarget (n : Nat) (self : PortfolioWebsite ℝ) :
    (frames n self).mouseTarget.x - self.mouse.x =
        (0.95 : ℝ) ^ n * (self.mouseTarget.x - self.mouse.x) ∧
      (frames n self).mouseTarget.y - self.mouse.y =
        (0.95 : ℝ) ^ n * (self.mouseTarget.y - self.mouse.y) := by
  induction n with
  | zero => simp [frames]
  | succ n ih =>
    have hm : (animate^[n] self).mouse = self.mouse := frames_mouse n self
    have hstep := animate_mouseTarget (animate^[n] self)
    obtain ⟨ihx, ihy⟩ := ih
    simp only [frames] at ihx ihy
    simp only [frames, Function.iterate_succ_apply']
    rw [hstep.1, hstep.2, hm, pow_succ]
    constructor
    · linear_combination (0.95 : ℝ) * ihx
    · linear_combination (0.95 : ℝ) * ihy

/-- C6, as stated, fails from the constructor state, where the eased pointer
already sits on the reading: the distance is 0 before and after the frame, and
does not strictly decrease. -/
theorem easing_at_rest_counterexample :
    (PortfolioWebsite.initial : PortfolioWebsite ℝ).mouseTarget.x =
      (PortfolioWebsite.initial : PortfolioWebsite ℝ).mouse.x ∧
    ¬ (|(frames 1 (PortfolioWebsite.initial : PortfolioWebsite ℝ)).mouseTarget.x -
          (PortfolioWebsite.initial : PortfolioWebsite ℝ).mouse.x| <
        |(frames 0 (PortfolioWebsite.initial : PortfolioWebsite ℝ)).mouseTarget.x -
          (PortfolioWebsite.initial : PortfolioWebsite ℝ).mouse.x|) := by
  simp [frames, animate, PortfolioWebsite.initial, Vector2.lerp]

/-- C6, amended.  Under frames with a constant reading `m`, on each coordinate:
from a start value other than `m` the distance of the eased value to `m` strictly
decreases at every frame; from the start value `m` the eased value stays at `m`;
and in both cases the distance tends to 0. -/
theorem easing_converges (self : PortfolioWebsite ℝ) :
    (self.mouseTarget.x ≠ self.mouse.x → ∀ n : Nat,
      |(frames (n + 1) self).mouseTarget.x - self.mouse.x| <
        |(frames n self).mouseTarget.x - self.mouse.x|) ∧
    (self.mouseTarget.y ≠ self.mouse.y → ∀ n : Nat,
      |(frames (n + 1) self).mouseTarget.y - self.mouse.y| <
        |(frames n self).mouseTarget.y - self.mouse.y|) ∧
    (self.mouseTarget.x = self.mouse.x → ∀ n : Nat,
      (frames n self).mouseTarget.x = self.mouse.x) ∧
    (self.mouseTarget.y = self.mouse.y → ∀ n : Nat,
      (frames n self).mouseTarget.y = self.mouse.y) ∧
    Filter.Tendsto (fun n : Nat => |(frames n self).mouseTarget.x - self.mouse.x|)
      Filter.atTop (nhds 0) ∧
    Filter.Tendsto (fun n : Nat => |(frames n self).mouseTarget.y - self.mouse.y|)
      Filter.atTop (nhds 0) := by
  have hpos : ∀ n : Nat, (0 : ℝ) < 0.95 ^ n := fun n => pow_pos (by norm_num) n
  have hstrict : ∀ (d : ℝ) (n : Nat), d ≠ 0 →
      |(0.95 : ℝ) ^ (n + 1) * d| < |(0.95 : ℝ) ^ n * d| := by
    intro d n hd
    rw [abs_mul, abs_mul, abs_of_pos (hpos (n + 1)), abs_of_pos (hpos n), pow_succ]
    have hd0 : 0 < |d| := abs_pos.mpr hd
    have := mul_pos (hpos n) hd0
    nlinarith
  have hlim : ∀ d : ℝ,
      Filter.Tendsto (fun n : Nat => |(0.95 : ℝ) ^ n * d|) Filter.atTop (nhds 0) := by
    intro d
    have h1 : Filter.Tendsto (fun n : Nat => (0.95 : ℝ) ^ n) Filter.atTop (nhds 0) :=
      tendsto_pow_atTop_nhds_zero_of_lt_one (by norm_num) (by norm_num)
    have h2 : Filter.Tendsto (fun n : Nat => (0.95 : ℝ) ^ n * |d|) Filter.atTop (nhds (0 * |d|)) :=
      h1.mul_const |d|
    rw [zero_mul] at h2
    refine h2.congr fun n => ?_
    rw [abs_mul, abs_of_pos (hpos n)]
  refine ⟨?_, ?_, ?_, ?_, ?_, ?_⟩
  · intro hne n
    rw [(frames_mouseTarget (n + 1) self).1, (frames_mouseTarget n self).1]
    exact hstrict _ n (sub_ne_zero.mpr hne)
  · intro hne n
    rw [(frames_mouseTarget (n + 1) self).2, (frames_mouseTarget n self).2]
    exact hstrict _ n (sub_ne_zero.mpr hne)
  · intro heq n
    have := (frames_mouseTarget n self).1
    rw [heq, sub_self, mul_zero] at this
    exact sub_eq_zero.mp this
  · intro heq n
    have := (frames_mouseTarget n self).2
    rw [heq, sub_self, mul_zero] at this
    exact sub_eq_zero.mp this
  · refine (hlim (self.mouseTarget.x - self.mouse.x)).congr fun n => ?_
    rw [(frames_mouseTarget n self).1]
  · refine (hlim (self.mouseTarget.y - self.mouse.y)).congr fun n => ?_
    rw [(frames_mouseTarget n self).2]

/-- C6, amended, after the pointer moved to the right edge of the window: the
eased pointer starts at 0, the reading is 1, and the fourth frame brings the
eased pointer closer than the third. -/
theorem easing_converges_witness :
    |(frames (3 + 1) (mousemove 1920 540 1920 1080
        (PortfolioWebsite.initial : PortfolioWebsite ℝ))).mouseTarget.x -
        (mousemove 1920 540 1920 1080 (PortfolioWebsite.initial : PortfolioWebsite ℝ)).mouse.x| <
      |(frames 3 (mousemove 1920 540 1920 1080
        (PortfolioWebsite.initial : PortfolioWebsite ℝ))).mouseTarget.x -
        (mousemove 1920 540 1920 1080 (PortfolioWebsite.initial : PortfolioWebsite ℝ)).mouse.x| :=
  (easing_converges (mousemove 1920 540 1920 1080
    (PortfolioWebsite.initial : PortfolioWebsite ℝ))).1
    (by simp [mousemove, PortfolioWebsite.initial]; norm_num) 3

/-- C7.  The easing step of a frame does not overshoot: on each coordinate the
new eased value lies between the previous eased value and the live reading, so
it is never beyond the reading as seen from the previous value. -/
theorem easing_no_overshoot (self : PortfolioWebsite ℝ) :
    (animate self).mouseTarget.x = self.mouseTarget.x + (self.mouse.x - self.mouseTarget.x) * 0.05 ∧
    (animate self).mouseTarget.y = self.mouseTarget.y + (self.mouse.y - self.mouseTarget.y) * 0.05 ∧
    min self.mouseTarget.x self.mouse.x ≤ (animate self).mouseTarget.x ∧
    (animate self).mouseTarget.x ≤ max self.mouseTarget.x self.mouse.x ∧
    min self.mouseTarget.y self.mouse.y ≤ (animate self).mouseTarget.y ∧
    (animate self).mouseTarget.y ≤ max self.mouseTarget.y self.mouse.y ∧
    (self.mouseTarget.x ≤ self.mouse.x → (animate self).mouseTarget.x ≤ self.mouse.x) ∧
    (self.mouse.x ≤ self.mouseTarget.x → self.mouse.x ≤ (animate self).mouseTarget.x) ∧
    (self.mouseTarget.y ≤ self.mouse.y → (animate self).mouseTarget.y ≤ self.mouse.y) ∧
    (self.mouse.y ≤ self.mouseTarget.y → self.mouse.y ≤ (animate self).mouseTarget.y) := by
  obtain ⟨hx, hy⟩ := animate_mouseTarget self
  have key : ∀ t m : ℝ,
      min t m ≤ t + (m - t) * 0.05 ∧ t + (m - t) * 0.05 ≤ max t m ∧
      (t ≤ m → t + (m - t) * 0.05 ≤ m) ∧ (m ≤ t → m ≤ t + (m - t) * 0.05) := by
    intro t m
    rcases le_total t m with h | h
    · rw [min_eq_left h, max_eq_right h]
      refine ⟨by linarith, by linarith, fun _ => by linarith, fun _ => by linarith⟩
    · rw [min_eq_right h, max_eq_left h]
      refine ⟨by linarith, by linarith, fun _ => by linarith, fun _ => by linarith⟩
  obtain ⟨x1, x2, x3, x4⟩ := key self.mouseTarget.x self.mouse.x
  obtain ⟨y1, y2, y3, y4⟩ := key self.mouseTarget.y self.mouse.y
  rw [hx, hy]
  exact ⟨rfl, rfl, x1, x2, y1, y2, x3, x4, y3, y4⟩

/-- C7 after the pointer moved to the right edge of the window: the eased value
goes from 0 to a value that is at most the reading 1. -/
theorem easing_no_overshoot_witness :
    (animate (mousemove 1920 540 1920 1080
      (PortfolioWebsite.initial : PortfolioWebsite ℝ))).mouseTarget.x ≤
      (mousemove 1920 540 1920 1080 (PortfolioWebsite.initial : PortfolioWebsite ℝ)).mouse.x :=
  (easing_no_overshoot (mousemove 1920 540 1920 1080
    (PortfolioWebsite.initial : PortfolioWebsite ℝ))).2.2.2.2.2.2.1
    (by simp [mousemove, PortfolioWebsite.initial])

/-! ## Render loop -/

/-- The constructor state is within the bounds of the render loop. -/
theorem initial_loopBounds : LoopBounds (PortfolioWebsite.initial : PortfolioWebsite ℝ) := by
  refine ⟨?_, ?_, ⟨{ x := 0, y := 0, z := 5 }, rfl, ?_⟩, ⟨{ x := 0, y := 0, z := 0 }, rfl, ?_⟩⟩
  · simp [PortfolioWebsite.initial]
  · simp [PortfolioWebsite.initial]
  · norm_num
  · norm_num

/-- A `mousemove` whose reading is in range keeps the bounds of the render loop. -/
theorem mousemove_loopBounds (self : PortfolioWebsite ℝ) (clientX clientY innerWidth innerHeight : ℝ)
    (hread : (LoopEvent.mousemove clientX clientY innerWidth innerHeight).readingInRange)
    (hself : LoopBounds self) :
    LoopBounds (mousemove clientX clientY innerWidth innerHeight self) := by
  obtain ⟨-, htarget, hcamera, hrotation⟩ := hself
  exact ⟨hread, htarget, hcamera, hrotation⟩

/-- A frame of `animate` keeps the bounds of the render loop. -/
theorem animate_loopBounds (self : PortfolioWebsite ℝ) (hself : LoopBounds self) :
    LoopBounds (animate self) := by
  obtain ⟨⟨mx0, mx1, my0, my1⟩, ⟨tx0, tx1, ty0, ty1⟩, ⟨position, hpos, px0, px1, py0, py1, pz⟩,
    ⟨rotation, hrot, rx0, rx1⟩⟩ := hself
  obtain ⟨hx, hy⟩ := animate_mouseTarget self
  have nx0 : -1 ≤ (animate self).mouseTarget.x := by rw [hx]; linarith
  have nx1 : (animate self).mouseTarget.x ≤ 1 := by rw [hx]; linarith
  have ny0 : -1 ≤ (animate self).mouseTarget.y := by rw [hy]; linarith
  have ny1 : (animate self).mouseTarget.y ≤ 1 := by rw [hy]; linarith
  have hcam : (animate self).cameraPosition =
      some { x := position.x + ((animate self).mouseTarget.x * 0.5 - position.x) * 0.05
             y := position.y + (-(animate self).mouseTarget.y * 0.5 - position.y) * 0.05
             z := position.z } := by
    simp [animate, hpos]
  have hpart : (animate self).particlesRotation =
      some { x := rotation.x + ((animate self).mouseTarget.y * 0.1 - rotation.x) * 0.05
             y := rotation.y + ((animate self).mouseTarget.x * 0.1 - rotation.y) * 0.05
             z := rotation.z } := by
    simp [animate, hrot]
  refine ⟨⟨mx0, mx1, my0, my1⟩, ⟨nx0, nx1, ny0, ny1⟩, ⟨_, hcam, ?_, ?_, ?_, ?_, pz⟩,
    ⟨_, hpart, ?_, ?_⟩⟩
  · show (-0.5 : ℝ) ≤ position.x + ((animate self).mouseTarget.x * 0.5 - position.x) * 0.05
    norm_num at px0 px1 ⊢
    linarith
  · show position.x + ((animate self).mouseTarget.x * 0.5 - position.x) * 0.05 ≤ (0.5 : ℝ)
    norm_num at px0 px1 ⊢
    linarith
  · show (-0.5 : ℝ) ≤ position.y + (-(animate self).mouseTarget.y * 0.5 - position.y) * 0.05
    norm_num at py0 py1 ⊢
    linarith
  · show position.y + (-(animate self).mouseTarget.y * 0.5 - position.y) * 0.05 ≤ (0.5 : ℝ)
    norm_num at py0 py1 ⊢
    linarith
  · show (-0.1 : ℝ) ≤ rotation.x + ((animate self).mouseTarget.y * 0.1 - rotation.x) * 0.05
    norm_num at rx0 rx1 ⊢
    linarith
  · show rotation.x + ((animate self).mouseTarget.y * 0.1 - rotation.x) * 0.05 ≤ (0.1 : ℝ)
    norm_num at rx0 rx1 ⊢
    linarith

/-- The bounds of the render loop hold after every interleaving of frames and of
pointer events whose readings are in range, from any state in which they hold. -/
theorem loopRun_loopBounds (evs : List (LoopEvent ℝ)) (self : PortfolioWebsite ℝ)
    (hevs : ∀ e ∈ evs, e.readingInRange) (hself : LoopBounds self) :
    LoopBounds (loopRun self evs) := by
  induction evs generalizing self with
  | nil => exact hself
  | cons e evs ih =>
    have hrest : ∀ e1 ∈ evs, e1.readingInRange := fun e1 h1 => hevs e1 (List.mem_cons_of_mem e h1)
    have hhead : e.readingInRange := hevs e (List.mem_cons_self e evs)
    have hstep : LoopBounds (loopStep self e) := by
      cases e with
      | mousemove clientX clientY innerWidth innerHeight =>
        exact mousemove_loopBounds self clientX clientY innerWidth innerHeight hhead hself
      | frame => exact animate_loopBounds self hself
    exact ih (loopStep self e) hrest hstep

/-- C11.  From the constructor state, for every interleaving `evs` of frames of
`animate` and of `mousemove` events whose readings lie in `[-1, 1] × [-1, 1]`,
after the frame that follows `evs`: both components of `mouseTarget` lie in
`[-1, 1]`, the camera's `x` and `y` lie in `[-0.5, 0.5]`, its `z` is still 5, and
the rotation of the particle cloud about `x` lies in `[-0.1, 0.1]`. -/
theorem render_loop_bounds (evs : List (LoopEvent ℝ)) (hevs : ∀ e ∈ evs, e.readingInRange) :
    -1 ≤ (loopRun PortfolioWebsite.initial (evs ++ [.frame])).mouseTarget.x ∧
    (loopRun PortfolioWebsite.initial (evs ++ [.frame])).mouseTarget.x ≤ 1 ∧
    -1 ≤ (loopRun PortfolioWebsite.initial (evs ++ [.frame])).mouseTarget.y ∧
    (loopRun PortfolioWebsite.initial (evs ++ [.frame])).mouseTarget.y ≤ 1 ∧
    (∃ position : Vector3 ℝ,
      (loopRun PortfolioWebsite.initial (evs ++ [.frame])).cameraPosition = some position ∧
      -0.5 ≤ position.x ∧ position.x ≤ 0.5 ∧ -0.5 ≤ position.y ∧ position.y ≤ 0.5 ∧
      position.z = 5) ∧
    (∃ rotation : Vector3 ℝ,
      (loopRun PortfolioWebsite.initial (evs ++ [.frame])).particlesRotation = some rotation ∧
      -0.1 ≤ rotation.x ∧ rotation.x ≤ 0.1) := by
  have hall : ∀ e ∈ evs ++ [LoopEvent.frame], e.readingInRange := by
    intro e he
    rcases List.mem_append.mp he with h | h
    · exact hevs e h
    · rw [List.mem_singleton.mp h]
      trivial
  obtain ⟨-, ⟨tx0, tx1, ty0, ty1⟩, hcamera, hrotation⟩ :=
    loopRun_loopBounds (evs ++ [.frame]) PortfolioWebsite.initial hall initial_loopBounds
  exact ⟨tx0, tx1, ty0, ty1, hcamera, hrotation⟩

/-- C11 when the pointer moves to the top right corner of a window of 1920 by
1080, a frame is drawn, and the pointer moves to the bottom left corner: the
bounds hold after the next frame. -/
theorem render_loop_bounds_witness :
    -1 ≤ (loopRun (PortfolioWebsite.initial : PortfolioWebsite ℝ)
      ([.mousemove 1920 0 1920 1080, .frame, .mousemove 0 1080 1920 1080] ++
        [.frame])).mouseTarget.x ∧
    (∃ position : Vector3 ℝ,
      (loopRun (PortfolioWebsite.initial : PortfolioWebsite ℝ)
        ([.mousemove 1920 0 1920 1080, .frame, .mousemove 0 1080 1920 1080] ++
          [.frame])).cameraPosition = some position ∧
      -0.5 ≤ position.x ∧ position.x ≤ 0.5 ∧ -0.5 ≤ position.y ∧ position.y ≤ 0.5 ∧
      position.z = 5) ∧
    (∃ rotation : Vector3 ℝ,
      (loopRun (PortfolioWebsite.initial : PortfolioWebsite ℝ)
        ([.mousemove 1920 0 1920 1080, .frame, .mousemove 0 1080 1920 1080] ++
          [.frame])).particlesRotation = some rotation ∧
      -0.1 ≤ rotation.x ∧ rotation.x ≤ 0.1) :=
  have h := render_loop_bounds [.mousemove 1920 0 1920 1080, .frame, .mousemove 0 1080 1920 1080]
    (by
      intro e he
      simp only [List.mem_cons, List.mem_singleton, List.not_mem_nil, or_false] at he
      rcases he with rfl | rfl | rfl
      · simp only [LoopEvent.readingInRange, mousemove]
        norm_num
      · trivial
      · simp only [LoopEvent.readingInRange, mousemove]
        norm_num)
  ⟨h.1, h.2.2.2.2.1, h.2.2.2.2.2⟩

/-! ## Particle colours -/

/-- The search for the binade finds the exponent `e0` with `2 ^ e0 ≤ q < 2 ^ (e0 + 1)`
when it starts at or above it with enough steps left. -/
theorem binadeFrom_eq {K : Type} [LinearOrderedField K] (q : K) (e0 : ℤ)
    (h0 : (2 : K) ^ e0 ≤ q) (h1 : q < (2 : K) ^ (e0 + 1)) :
    ∀ (fuel : Nat) (e : ℤ), e0 ≤ e → e - e0 ≤ fuel → binadeFrom q fuel e = e0 := by
  intro fuel
  induction fuel with
  | zero =>
    intro e hle hfuel
    simp only [binadeFrom]
    have : e - e0 ≤ 0 := by exact_mod_cast hfuel
    omega
  | succ fuel ih =>
    intro e hle hfuel
    simp only [binadeFrom]
    by_cases he : e = e0
    · rw [he, if_pos h0]
    · have hlt : e0 + 1 ≤ e := by omega
      have hpow : (2 : K) ^ (e0 + 1) ≤ (2 : K) ^ e := zpow_le_zpow_right₀ (by norm_num) hlt
      have hnot : ¬ (2 : K) ^ e ≤ q := not_le.mpr (lt_of_lt_of_le h1 hpow)
      rw [if_neg hnot]
      apply ih (e - 1) (by omega)
      have : e - e0 ≤ (fuel : ℤ) + 1 := by exact_mod_cast hfuel
      omega

/-- The binary32 conversion of two fifths is `13421773 / 2 ^ 25`, which is
`0.4000000059604644775390625`, above two fifths. -/
theorem fround32_two_fifths : fround32 (2 / 5 : ℚ) = 13421773 / 33554432 := by
  have hb : binade |(2 / 5 : ℚ)| = -2 := by
    have habs : |(2 / 5 : ℚ)| = 2 / 5 := abs_of_pos (by norm_num)
    rw [habs]
    exact binadeFrom_eq (2 / 5 : ℚ) (-2) (by norm_num) (by norm_num) 253 127 (by norm_num)
      (by norm_num)
  have hfloor : ⌊(2 / 5 : ℚ) / 2 ^ ((-2 : ℤ) - 23)⌋ = 13421772 := by
    rw [Int.floor_eq_iff]
    constructor
    · norm_num
    · norm_num
  unfold fround32
  simp only [hb, hfloor]
  norm_num

/-- The buffers after the first `n` turns of the loop of `createParticleSystem`:
the entries of particle `i` are the binary32 conversions of the components of the
colour mixed with the fourth random number of its turn. -/
theorem particle_loop_invariant {K : Type} [LinearOrderedField K] [FloorRing K]
    (random : Nat → K) (color1 color2 : Color K)
    (init : ParticleBuffers K) (hinit : init.calls = 0) (n : Nat) :
    ((List.range n).foldl (particleStep random color1 color2) init).calls = 4 * n ∧
      ∀ i < n,
        ((List.range n).foldl (particleStep random color1 color2) init).colors (i * 3) =
            fround32 (color1.lerp color2 (random (4 * i + 3))).r ∧
          ((List.range n).foldl (particleStep random color1 color2) init).colors (i * 3 + 1) =
            fround32 (color1.lerp color2 (random (4 * i + 3))).g ∧
          ((List.range n).foldl (particleStep random color1 color2) init).colors (i * 3 + 2) =
            fround32 (color1.lerp color2 (random (4 * i + 3))).b := by
  induction n with
  | zero => simp [hinit]
  | succ n ih =>
    obtain ⟨hcalls, hcolors⟩ := ih
    rw [List.range_succ, List.foldl_append, List.foldl_cons, List.foldl_nil]
    refine ⟨?_, ?_⟩
    · simp only [particleStep, hcalls]
      omega
    · intro i hi
      rcases Nat.lt_succ_iff_lt_or_eq.mp hi with hlt | heq
      · obtain ⟨h0, h1, h2⟩ := hcolors i hlt
        have e0 : i * 3 ≠ n * 3 := by omega
        have e1 : i * 3 ≠ n * 3 + 1 := by omega
        have e2 : i * 3 ≠ n * 3 + 2 := by omega
        have e3 : i * 3 + 1 ≠ n * 3 := by omega
        have e4 : i * 3 + 1 ≠ n * 3 + 1 := by omega
        have e5 : i * 3 + 1 ≠ n * 3 + 2 := by omega
        have e6 : i * 3 + 2 ≠ n * 3 := by omega
        have e7 : i * 3 + 2 ≠ n * 3 + 1 := by omega
        have e8 : i * 3 + 2 ≠ n * 3 + 2 := by omega
        simp only [particleStep, setFloat32, setAt, e0, e1, e2, e3, e4, e5, e6, e7, e8, if_false]
        exact ⟨h0, h1, h2⟩
      · subst heq
        have e1 : i * 3 ≠ i * 3 + 1 := by omega
        have e2 : i * 3 ≠ i * 3 + 2 := by omega
        have e3 : i * 3 + 1 ≠ i * 3 + 2 := by omega
        simp only [particleStep, setFloat32, setAt, hcalls, e1, e2, e3, if_false, if_true]
        refine ⟨?_, ?_, ?_⟩ <;> trivial

/-- A value interpolated with a factor in `[0, 1]` lies between the two ends. -/
theorem lerp_between {K : Type} [LinearOrderedField K] (a b t : K) (h0 : 0 ≤ t) (h1 : t ≤ 1) :
    min a b ≤ a + (b - a) * t ∧ a + (b - a) * t ≤ max a b := by
  rcases le_total a b with h | h
  · rw [min_eq_left h, max_eq_right h]
    constructor
    · nlinarith
    · nlinarith
  · rw [min_eq_right h, max_eq_left h]
    constructor
    · nlinarith
    · nlinarith

/-- The result of `createParticleSystem` is the fold of the loop body over the
1000 particle indices. -/
theorem createParticleSystem_eq {K : Type} [LinearOrderedField K] [FloorRing K]
    (mkColor : Nat → Color K) (random : Nat → K) :
    createParticleSystem mkColor random =
      (List.range 1000).foldl (particleStep random (mkColor 0x6366f1) (mkColor 0x8b5cf6))
        { positions := fun _ => 0, colors := fun _ => 0, calls := 0 } := by
  unfold createParticleSystem
  rfl

/-- C8, as stated, fails for particle 0 when `Math.random()` returns 0 for its mix
factor and the base colours are the byte triplets scaled to `[0, 1]`: the mixed
green is that of `0x6366f1`, two fifths, and the entry written to `colors[1]` is
its binary32 conversion `13421773 / 2 ^ 25`, which is above the green of both
base colours and is not `color1 + (color2 - color1) * t`. -/
theorem particle_colour_rounded_counterexample :
    (Color.ofHex 0x6366f1 : Color ℚ).g = 2 / 5 ∧
    (Color.ofHex 0x8b5cf6 : Color ℚ).g = 92 / 255 ∧
    (createParticleSystem Color.ofHex fun _ => (0 : ℚ)).colors (0 * 3 + 1) = 13421773 / 33554432 ∧
    ¬ ((createParticleSystem Color.ofHex fun _ => (0 : ℚ)).colors (0 * 3 + 1) ≤
        max (Color.ofHex 0x6366f1 : Color ℚ).g (Color.ofHex 0x8b5cf6 : Color ℚ).g) ∧
    (createParticleSystem Color.ofHex fun _ => (0 : ℚ)).colors (0 * 3 + 1) ≠
      (Color.ofHex 0x6366f1 : Color ℚ).g +
        ((Color.ofHex 0x8b5cf6 : Color ℚ).g - (Color.ofHex 0x6366f1 : Color ℚ).g) * 0 := by
  have hg1 : (Color.ofHex 0x6366f1 : Color ℚ).g = 2 / 5 := by
    simp only [Color.ofHex]
    norm_num
  have hg2 : (Color.ofHex 0x8b5cf6 : Color ℚ).g = 92 / 255 := by
    simp only [Color.ofHex]
    norm_num
  have hmix : ((Color.ofHex 0x6366f1 : Color ℚ).lerp (Color.ofHex 0x8b5cf6) 0).g = 2 / 5 := by
    simp only [Color.lerp, mul_zero, add_zero]
    exact hg1
  have hstored : (createParticleSystem Color.ofHex fun _ => (0 : ℚ)).colors (0 * 3 + 1) =
      13421773 / 33554432 := by
    rw [createParticleSystem_eq]
    rw [((particle_loop_invariant (fun _ => (0 : ℚ)) (Color.ofHex 0x6366f1) (Color.ofHex 0x8b5cf6)
      { positions := fun _ => 0, colors := fun _ => 0, calls := 0 } rfl 1000).2 0
        (by norm_num)).2.1]
    rw [hmix]
    exact fround32_two_fifths
  refine ⟨hg1, hg2, hstored, ?_, ?_⟩
  · rw [hstored, hg1, hg2]
    norm_num
  · rw [hstored, hg1, hg2]
    norm_num

/-- C8, amended.  For every particle index `i < 1000`, with `t` the value in
`[0, 1)` that `Math.random()` returns for the colour of particle `i` (its fourth
call of the turn): the colour mixed for the particle is, in exact arithmetic,
`color1 + (color2 - color1) * t` componentwise, where `color1` and `color2` are
the colours of `0x6366f1` and `0x8b5cf6`, so each of its components lies between
the corresponding components of the two base colours, all three with the same
`t`; and the entries `colors[3i]`, `colors[3i + 1]`, `colors[3i + 2]` are the
binary32 conversions of its three components. -/
theorem particle_colour_mixed_on_segment {K : Type} [LinearOrderedField K] [FloorRing K]
    (mkColor : Nat → Color K) (random : Nat → K)
    (hrandom : ∀ n, 0 ≤ random n ∧ random n < 1) (i : Nat) (hi : i < 1000) :
    (createParticleSystem mkColor random).colors (i * 3) =
      fround32 ((mkColor 0x6366f1).lerp (mkColor 0x8b5cf6) (random (4 * i + 3))).r ∧
    (createParticleSystem mkColor random).colors (i * 3 + 1) =
      fround32 ((mkColor 0x6366f1).lerp (mkColor 0x8b5cf6) (random (4 * i + 3))).g ∧
    (createParticleSystem mkColor random).colors (i * 3 + 2) =
      fround32 ((mkColor 0x6366f1).lerp (mkColor 0x8b5cf6) (random (4 * i + 3))).b ∧
    ((mkColor 0x6366f1).lerp (mkColor 0x8b5cf6) (random (4 * i + 3))).r =
      (mkColor 0x6366f1).r + ((mkColor 0x8b5cf6).r - (mkColor 0x6366f1).r) * random (4 * i + 3) ∧
    ((mkColor 0x6366f1).lerp (mkColor 0x8b5cf6) (random (4 * i + 3))).g =
      (mkColor 0x6366f1).g + ((mkColor 0x8b5cf6).g - (mkColor 0x6366f1).g) * random (4 * i + 3) ∧
    ((mkColor 0x6366f1).lerp (mkColor 0x8b5cf6) (random (4 * i + 3))).b =
      (mkColor 0x6366f1).b + ((mkColor 0x8b5cf6).b - (mkColor 0x6366f1).b) * random (4 * i + 3) ∧
    min (mkColor 0x6366f1).r (mkColor 0x8b5cf6).r ≤
      ((mkColor 0x6366f1).lerp (mkColor 0x8b5cf6) (random (4 * i + 3))).r ∧
    ((mkColor 0x6366f1).lerp (mkColor 0x8b5cf6) (random (4 * i + 3))).r ≤
      max (mkColor 0x6366f1).r (mkColor 0x8b5cf6).r ∧
    min (mkColor 0x6366f1).g (mkColor 0x8b5cf6).g ≤
      ((mkColor 0x6366f1).lerp (mkColor 0x8b5cf6) (random (4 * i + 3))).g ∧
    ((mkColor 0x6366f1).lerp (mkColor 0x8b5cf6) (random (4 * i + 3))).g ≤
      max (mkColor 0x6366f1).g (mkColor 0x8b5cf6).g ∧
    min (mkColor 0x6366f1).b (mkColor 0x8b5cf6).b ≤
      ((mkColor 0x6366f1).lerp (mkColor 0x8b5cf6) (random (4 * i + 3))).b ∧
    ((mkColor 0x6366f1).lerp (mkColor 0x8b5cf6) (random (4 * i + 3))).b ≤
      max (mkColor 0x6366f1).b (mkColor 0x8b5cf6).b := by
  obtain ⟨h0, h1, h2⟩ := (particle_loop_invariant random (mkColor 0x6366f1) (mkColor 0x8b5cf6)
    { positions := fun _ => 0, colors := fun _ => 0, calls := 0 } rfl 1000).2 i hi
  rw [← createParticleSystem_eq] at h0 h1 h2
  obtain ⟨t0, t1⟩ := hrandom (4 * i + 3)
  have br := lerp_between (mkColor 0x6366f1).r (mkColor 0x8b5cf6).r _ t0 t1.le
  have bg := lerp_between (mkColor 0x6366f1).g (mkColor 0x8b5cf6).g _ t0 t1.le
  have bb := lerp_between (mkColor 0x6366f1).b (mkColor 0x8b5cf6).b _ t0 t1.le
  exact ⟨h0, h1, h2, rfl, rfl, rfl, br.1, br.2, bg.1, bg.2, bb.1, bb.2⟩

/-- C8, amended, for particle 7 when every call of `Math.random()` returns one
half and the colours are the byte triplets scaled to `[0, 1]`: the entry
`colors[21]` is the binary32 conversion of the red halfway between the two base
colours, and that red lies between theirs. -/
theorem particle_colour_mixed_on_segment_witness :
    (createParticleSystem Color.ofHex fun _ => (1 / 2 : ℚ)).colors (7 * 3) =
      fround32 ((Color.ofHex 0x6366f1 : Color ℚ).lerp (Color.ofHex 0x8b5cf6) (1 / 2)).r ∧
    ((Color.ofHex 0x6366f1 : Color ℚ).lerp (Color.ofHex 0x8b5cf6) (1 / 2)).r ≤
      max (Color.ofHex 0x6366f1 : Color ℚ).r (Color.ofHex 0x8b5cf6 : Color ℚ).r :=
  have h := particle_colour_mixed_on_segment Color.ofHex (fun _ => (1 / 2 : ℚ))
    (fun _ => ⟨by norm_num, by norm_num⟩) 7 (by decide)
  ⟨h.1, h.2.2.2.2.2.2.2.1⟩

end Portfolio
